import Mathlib

/-!
Verification development for the `datalake` repository: a shallow embedding of
`snowflake_clone_framework.py` (clone engine, bulk orchestrator, validation)
and `rbac_manager.py` (role creation, privilege application, hierarchy, user
assignment, audit), together with theorems settling the specified behaviour.

The external warehouse (the Snowflake cursor) is modelled as an oracle: a
success predicate on the exact statement string the code would execute, plus
row-returning oracles for the queries whose results the code reads back.
`datetime.now().isoformat()` strings are threaded as an explicit `now`
parameter where the code stores timestamps that later take part in
truthiness checks; purely informational timestamps are dropped.
-/

/-- Python dict assignment `d[k] = v` on an insertion-ordered association
list: an existing key keeps its position and gets the new value, a new key is
appended at the end. -/
def insertAssoc {α : Type} (k : String) (v : α) : List (String × α) → List (String × α)
  | [] => [(k, v)]
  | (k2, v2) :: rest => if k2 = k then (k2, v) :: rest else (k2, v2) :: insertAssoc k v rest

/-- Lookup in an association list (Python `d.get(k)` / `k in d`). -/
def lookupAssoc {α : Type} (m : List (String × α)) (k : String) : Option α :=
  match m with
  | [] => none
  | (k2, v) :: rest => if k2 = k then some v else lookupAssoc rest k

/-- Running a sequence of statements inside one Python `try` block: the first
raising statement aborts the rest and the whole call reports failure, so the
boolean outcome is the conjunction of the per-statement outcomes. -/
def runStmts (execOk : String → Bool) : List String → Bool
  | [] => true
  | s :: rest => execOk s && runStmts execOk rest

/-- Fuel-driven worker for `listReplace`; fuel is the length of the input so
the `0` case is unreachable. -/
def listReplaceF (pat rep : List Char) : Nat → List Char → List Char
  | _, [] => []
  | 0, l => l
  | fuel + 1, c :: rest =>
    if pat.isPrefixOf (c :: rest) && !pat.isEmpty then
      rep ++ listReplaceF pat rep fuel (rest.drop (pat.length - 1))
    else
      c :: listReplaceF pat rep fuel rest

/-- Python `str.replace`: replace every leftmost non-overlapping occurrence of
`pat` by `rep`, scanning left to right. -/
def listReplace (pat rep l : List Char) : List Char :=
  listReplaceF pat rep l.length l

/-- `pat` occurs as a contiguous substring of `l`. -/
def containsSub (pat : List Char) : List Char → Bool
  | [] => pat.isEmpty
  | c :: rest => pat.isPrefixOf (c :: rest) || containsSub pat rest

/-- Python `str.replace` lifted to `String`. -/
def strReplace (s pat rep : String) : String :=
  ⟨listReplace pat.data rep.data s.data⟩

/-- Split a character list on the dot character (Python `s.split(".")`). -/
def splitDots : List Char → List (List Char)
  | [] => [[]]
  | c :: rest =>
    if c = '.' then [] :: splitDots rest
    else
      match splitDots rest with
      | [] => [[c]]
      | g :: gs => (c :: g) :: gs

/-- Number of dot-separated segments of a qualified name. -/
def segCount (s : String) : Nat := (splitDots s.data).length

/-- Python `str.upper()` restricted to its ASCII action, which covers every
mode and privilege string the code compares after upper-casing. -/
def pyUpper (s : String) : String := ⟨s.data.map Char.toUpper⟩

namespace CloneFW

/-- One row of the warehouse `SHOW CLONES` listing, as consumed by
`get_clone_history` (columns 0 and 1; `created_on` and `clone_type` are
carried along but unused by validation). -/
structure CloneRow where
  source_object : String
  clone_object : String
  created_on : String
  clone_type : Option String
deriving DecidableEq

/-- The Snowflake cursor as seen by `snowflake_clone_framework.py`:
`execOk s` tells whether `cursor.execute(s)` succeeds for a DDL / DESCRIBE
statement, `fetchClones q` gives the rows of a `SHOW CLONES` query `q`
(`none` means the query raised). -/
structure Cursor where
  execOk : String → Bool
  fetchClones : String → Option (List CloneRow)

/-- The ambient configuration slice read by `clone_database`:
`config.get(\x27cloning\x27, \x7b\x7d).get(\x27at_time\x27)`. -/
structure Config where
  at_time : Option String

/-- The SQL string built by `clone_database` (lines 148-156): a plain
`CREATE DATABASE .. CLONE ..`, with an `AT (TIMESTAMP => ..)` clause appended
only when the mode upper-cases to `AT_TIME` and the configured timestamp is
truthy (present and non-empty). -/
def cloneDatabaseSQL (cfg : Config) (source_db target_db clone_type : String) : String :=
  let base := "CREATE DATABASE " ++ target_db ++ " CLONE " ++ source_db
  if pyUpper clone_type = "AT_TIME" then
    match cfg.at_time with
    | some t => if t ≠ "" then base ++ " AT (TIMESTAMP => \x27" ++ t ++ "\x27)" else base
    | none => base
  else base

/-- `clone_database` (lines 144-164): executes the single built statement; any
execution failure is caught and returned as `false`. -/
def cloneDatabase (cur : Cursor) (cfg : Config) (source_db target_db clone_type : String) : Bool :=
  cur.execOk (cloneDatabaseSQL cfg source_db target_db clone_type)

/-- The two statements issued by `clone_schema` (lines 166-186), with the
target schema defaulting to the source schema when absent. -/
def cloneSchemaStmts (source_db source_schema target_db : String)
    (target_schema : Option String) : List String :=
  let ts := target_schema.getD source_schema
  ["CREATE DATABASE IF NOT EXISTS " ++ target_db,
   "CREATE SCHEMA " ++ target_db ++ "." ++ ts ++ " CLONE " ++ source_db ++ "." ++ source_schema]

/-- `clone_schema`: both statements sit in one `try`, so the boolean result is
their conjunction (first failure aborts the second). -/
def cloneSchema (cur : Cursor) (source_db source_schema target_db : String)
    (target_schema : Option String) : Bool :=
  runStmts cur.execOk (cloneSchemaStmts source_db source_schema target_db target_schema)

/-- The three statements issued by `clone_table` (lines 188-212), with target
schema and table defaulting to the source names when absent. -/
def cloneTableStmts (source_db source_schema source_table target_db : String)
    (target_schema target_table : Option String) : List String :=
  let ts := target_schema.getD source_schema
  let tt := target_table.getD source_table
  ["CREATE DATABASE IF NOT EXISTS " ++ target_db,
   "CREATE SCHEMA IF NOT EXISTS " ++ target_db ++ "." ++ ts,
   "CREATE TABLE " ++ target_db ++ "." ++ ts ++ "." ++ tt ++ " CLONE " ++
     source_db ++ "." ++ source_schema ++ "." ++ source_table]

/-- `clone_table`: the three statements run inside one `try`; the result is
their conjunction. No path validation of any kind is performed. -/
def cloneTable (cur : Cursor) (source_db source_schema source_table target_db : String)
    (target_schema target_table : Option String) : Bool :=
  runStmts cur.execOk
    (cloneTableStmts source_db source_schema source_table target_db target_schema target_table)

/-- One database-clone request of a bulk operation config. -/
structure DbCfg where
  source : String
  target : String
deriving DecidableEq

/-- One schema-clone request of a bulk operation config; `none` models an
absent `target_schema` key. -/
structure SchemaCfg where
  source_db : String
  source_schema : String
  target_db : String
  target_schema : Option String
deriving DecidableEq

/-- One table-clone request of a bulk operation config; `none` models absent
`target_schema` / `target_table` keys. -/
structure TableCfg where
  source_db : String
  source_schema : String
  source_table : String
  target_db : String
  target_schema : Option String
  target_table : Option String
deriving DecidableEq

/-- The bulk operation config: an absent `databases` / `schemas` / `tables`
key behaves exactly like an empty list (the loop body never runs), so absent
keys are modelled as `[]`. -/
structure OpConfig where
  databases : List DbCfg
  schemas : List SchemaCfg
  tables : List TableCfg

/-- A per-item entry of the bulk report maps: the recorded source string and
the boolean outcome (the per-item `timestamp` field is an informational
`datetime.now` string, dropped here). -/
structure ItemOutcome where
  source : String
  success : Bool
deriving DecidableEq

/-- The `summary` block of a bulk run report. -/
structure Summary where
  total_operations : Nat
  successful_operations : Nat
  failed_operations : Nat
deriving DecidableEq

/-- `summary` update of one loop iteration of `bulk_clone_operation`:
`total_operations += 1` and exactly one of the other two counters bumped. -/
def bump (s : Summary) (ok : Bool) : Summary :=
  { total_operations := s.total_operations + 1,
    successful_operations := if ok then s.successful_operations + 1 else s.successful_operations,
    failed_operations := if ok then s.failed_operations else s.failed_operations + 1 }

/-- The result structure built by `bulk_clone_operation` (`operation_id`,
`start_time`, `end_time` are informational time strings, dropped here). -/
structure BulkResults where
  databases : List (String × ItemOutcome)
  schemas : List (String × ItemOutcome)
  tables : List (String × ItemOutcome)
  summary : Summary

/-- Report key of a database request: the target database name. -/
def dbKey (d : DbCfg) : String := d.target

/-- Report key of a schema request (line 259). -/
def schKey (s : SchemaCfg) : String :=
  s.target_db ++ "." ++ s.target_schema.getD s.source_schema

/-- Report key of a table request (lines 283-285). -/
def tblKey (t : TableCfg) : String :=
  t.target_db ++ "." ++ t.target_schema.getD t.source_schema ++ "." ++
    t.target_table.getD t.source_table

/-- Recorded source string of a schema request. -/
def schSource (s : SchemaCfg) : String := s.source_db ++ "." ++ s.source_schema

/-- Recorded source string of a table request. -/
def tblSource (t : TableCfg) : String :=
  t.source_db ++ "." ++ t.source_schema ++ "." ++ t.source_table

/-- Outcome of one database request: `bulk_clone_operation` calls
`clone_database(source, target)` with the default mode `ZERO_COPY`. -/
def dbOk (cur : Cursor) (cfg : Config) (d : DbCfg) : Bool :=
  cloneDatabase cur cfg d.source d.target "ZERO_COPY"

/-- Outcome of one schema request. -/
def schOk (cur : Cursor) (s : SchemaCfg) : Bool :=
  cloneSchema cur s.source_db s.source_schema s.target_db s.target_schema

/-- Outcome of one table request. -/
def tblOk (cur : Cursor) (t : TableCfg) : Bool :=
  cloneTable cur t.source_db t.source_schema t.source_table t.target_db
    t.target_schema t.target_table

/-- One iteration of the databases loop (lines 232-247). -/
def processDb (cur : Cursor) (cfg : Config) (acc : BulkResults) (d : DbCfg) : BulkResults :=
  let ok := dbOk cur cfg d
  { acc with
    databases := insertAssoc (dbKey d) ⟨d.source, ok⟩ acc.databases,
    summary := bump acc.summary ok }

/-- One iteration of the schemas loop (lines 250-269). -/
def processSchema (cur : Cursor) (acc : BulkResults) (s : SchemaCfg) : BulkResults :=
  let ok := schOk cur s
  { acc with
    schemas := insertAssoc (schKey s) ⟨schSource s, ok⟩ acc.schemas,
    summary := bump acc.summary ok }

/-- One iteration of the tables loop (lines 272-296). -/
def processTable (cur : Cursor) (acc : BulkResults) (t : TableCfg) : BulkResults :=
  let ok := tblOk cur t
  { acc with
    tables := insertAssoc (tblKey t) ⟨tblSource t, ok⟩ acc.tables,
    summary := bump acc.summary ok }

/-- `bulk_clone_operation` (lines 214-301): all database requests, then all
schema requests, then all table requests, each executed unconditionally, each
outcome written into the per-category map under its resolved target key and
counted into the summary. -/
def bulkCloneOperation (cur : Cursor) (cfg : Config) (op : OpConfig) : BulkResults :=
  let r0 : BulkResults := ⟨[], [], [], ⟨0, 0, 0⟩⟩
  let r1 := op.databases.foldl (processDb cur cfg) r0
  let r2 := op.schemas.foldl (processSchema cur) r1
  op.tables.foldl (processTable cur) r2

/-- Query string built by `get_clone_history` (lines 306-309): truthiness of
the `object_name` argument decides between the filtered and plain listing. -/
def cloneHistoryQuery : Option String → String
  | some s => if s ≠ "" then "SHOW CLONES LIKE \x27" ++ s ++ "\x27" else "SHOW CLONES"
  | none => "SHOW CLONES"

/-- `get_clone_history` (lines 303-328): runs the listing query and maps each
row; any failure is swallowed and an empty history returned. -/
def getCloneHistory (cur : Cursor) (object_name : Option String) : List CloneRow :=
  match cur.fetchClones (cloneHistoryQuery object_name) with
  | some rows => rows
  | none => []

/-- The three check flags of a validation result, in the dict order of the
source (lines 336-340). -/
structure Checks where
  target_exists : Bool
  source_accessible : Bool
  clone_relationship : Bool
deriving DecidableEq

/-- The validation result of `validate_clone_operation` (the
`validation_timestamp` field is an informational time string, dropped). -/
structure ValidationResult where
  source : String
  target : String
  checks : Checks
  overall_status : String
deriving DecidableEq

/-- `validate_clone_operation` (lines 330-374): three independent checks, each
failure (including a raising DESCRIBE, swallowed by its inner `try`) leaving
the flag false; overall status is SUCCESS exactly when all three flags are
true. Nothing in the body can raise, so the outer `except` is unreachable. -/
def validateCloneOperation (cur : Cursor) (source_obj target_obj : String) : ValidationResult :=
  let srcOk := cur.execOk ("DESCRIBE " ++ source_obj)
  let tgtOk := cur.execOk ("DESCRIBE " ++ target_obj)
  let rel := (getCloneHistory cur (some target_obj)).any
    (fun c => c.source_object == source_obj && c.clone_object == target_obj)
  { source := source_obj,
    target := target_obj,
    checks := ⟨tgtOk, srcOk, rel⟩,
    overall_status := if tgtOk && srcOk && rel then "SUCCESS" else "FAILED" }

end CloneFW

namespace Rbac

/-- One row of `SHOW ROLES` as consumed by `audit_rbac_configuration`
(columns 0-3; the optional columns model short rows via the `len` guards). -/
structure RoleRow where
  created_on : String
  name : String
  owner : Option String
  comment : Option String
deriving DecidableEq

/-- One row of `SHOW GRANTS TO ROLE ..` as consumed by the audit (columns
1-5; column 0 is never read). -/
structure GrantRow where
  privilege : String
  granted_on : String
  name : String
  granted_to : Option String
  grantee_name : Option String
deriving DecidableEq

/-- The Snowflake cursor as seen by `rbac_manager.py`: `execOk s` tells
whether `cursor.execute(s)` succeeds for a DDL/grant statement; `showRoles`
is the `SHOW ROLES` result (`none` means the query raised); `showGrants r` is
the `SHOW GRANTS TO ROLE r` result (`none` means that query raised). -/
structure RCursor where
  execOk : String → Bool
  showRoles : Option (List RoleRow)
  showGrants : String → Option (List GrantRow)

/-- One privilege instruction of a role config: a privilege name and the
object patterns it applies to. -/
structure PrivEntry where
  privilege : String
  objects : List String
deriving DecidableEq

/-- The `privileges` mapping of a role config. An absent object-type key
makes the corresponding loop body never run, exactly like an empty list, so
absent keys are modelled as `[]`. -/
structure Privileges where
  databases : List PrivEntry
  schemas : List PrivEntry
  tables : List PrivEntry
  views : List PrivEntry
  warehouses : List PrivEntry
deriving DecidableEq

/-- One configured role: `description` defaults to the empty string and
`privileges` to the empty mapping when absent. -/
structure RoleConfig where
  name : String
  description : String
  privileges : Privileges
deriving DecidableEq

/-- The SQL built by `_create_role` (lines 69-83): the COMMENT clause is
appended only for a truthy (non-empty) description. -/
def createRoleSQL (role_name description : String) : String :=
  let base := "CREATE ROLE IF NOT EXISTS " ++ role_name
  if description ≠ "" then base ++ " COMMENT = \x27" ++ description ++ "\x27" else base

/-- `_create_role`: executes the single statement; failure is caught and
returned as `false`. -/
def createRole (cur : RCursor) (role_name description : String) : Bool :=
  cur.execOk (createRoleSQL role_name description)

/-- `create_service_roles` / `create_system_full_roles` (lines 27-67): one
role-creation attempt per configured role, results collected into a dict
keyed by role name. -/
def createRolesPhase (cur : RCursor) (roles : List RoleConfig) : List (String × Bool) :=
  roles.foldl (fun acc rc => insertAssoc rc.name (createRole cur rc.name rc.description) acc) []

/-- The per-object grant statement built by `_grant_privilege`
(lines 255-258). -/
def grantSQL (privilege object_type obj role : String) : String :=
  if pyUpper privilege = "ALL" then
    "GRANT ALL PRIVILEGES ON " ++ object_type ++ " " ++ obj ++ " TO ROLE " ++ role
  else
    "GRANT " ++ privilege ++ " ON " ++ object_type ++ " " ++ obj ++ " TO ROLE " ++ role

/-- `_grant_privilege` (lines 251-267): grants the privilege on each object in
turn inside one `try`; the first raising statement aborts the rest and the
whole instruction reports `false`. -/
def grantPrivilege (cur : RCursor) (privilege object_type : String) (objects : List String)
    (role : String) : Bool :=
  runStmts cur.execOk (objects.map (fun obj => grantSQL privilege object_type obj role))

/-- The literal placeholder `_substitute_variables` replaces (the braces of
the source string are escaped here). -/
def targetDbPlaceholder : String := "$\x7bTARGET_DATABASE\x7d"

/-- `_substitute_variables` (lines 269-275): plain `str.replace` of every
occurrence of the placeholder in every object name. -/
def substituteVariables (objects : List String) (target_database : String) : List String :=
  objects.map (fun obj => strReplace obj targetDbPlaceholder target_database)

/-- A privilege record as appended to `applied_privileges` /
`failed_privileges`: note the source records the ORIGINAL (pre-substitution)
object list. -/
structure PrivInfo where
  ptype : String
  privilege : String
  objects : List String
deriving DecidableEq

/-- The per-role result built by `_apply_role_privileges`. -/
structure RoleResult where
  role : String
  success : Bool
  applied_privileges : List PrivInfo
  failed_privileges : List PrivInfo
  error_messages : List String
deriving DecidableEq

/-- One object-type block of `_apply_role_privileges` (the five blocks at
lines 134-242 are textual copies differing only in the object type tag and in
whether the object list is passed through `_substitute_variables`; `resolve`
is that per-block object-list transformation). -/
def applyGroup (cur : RCursor) (role ptype otype : String)
    (resolve : List String → List String) (entries : List PrivEntry)
    (r : RoleResult) : RoleResult :=
  entries.foldl (fun r e =>
    let ok := grantPrivilege cur e.privilege otype (resolve e.objects) role
    let info : PrivInfo := ⟨ptype, e.privilege, e.objects⟩
    if ok then { r with applied_privileges := r.applied_privileges ++ [info] }
    else { r with failed_privileges := r.failed_privileges ++ [info], success := false }) r

/-- `_apply_role_privileges` (lines 123-249): the five object-type blocks in
source order; database/schema/table/view object lists go through variable
substitution, warehouse object lists do not. With the typed configuration
nothing in the body can raise, so the `except` branch that would append to
`error_messages` is unreachable and `error_messages` stays empty. -/
def applyRolePrivileges (cur : RCursor) (role_name : String) (privileges : Privileges)
    (target_database : String) : RoleResult :=
  let r0 : RoleResult := ⟨role_name, true, [], [], []⟩
  let sub := fun objs => substituteVariables objs target_database
  let r1 := applyGroup cur role_name "database" "DATABASE" sub privileges.databases r0
  let r2 := applyGroup cur role_name "schema" "SCHEMA" sub privileges.schemas r1
  let r3 := applyGroup cur role_name "table" "TABLE" sub privileges.tables r2
  let r4 := applyGroup cur role_name "view" "VIEW" sub privileges.views r3
  applyGroup cur role_name "warehouse" "WAREHOUSE" (fun objs => objs) privileges.warehouses r4

/-- The `summary` block of the privileges phase. -/
structure PrivPhaseSummary where
  total_roles : Nat
  successful_roles : Nat
  failed_roles : Nat
deriving DecidableEq

/-- The result of `apply_role_privileges` (lines 85-121): dict insertion
order of the fields is timestamp, target_database, roles, summary — the
order Python `result.values()` later iterates for truthiness checks. -/
structure PrivPhaseResult where
  timestamp : String
  target_database : String
  roles : List (String × RoleResult)
  summary : PrivPhaseSummary

/-- `apply_role_privileges` with the default `role_types` (both categories,
service roles first), as invoked by `complete_rbac_setup` with
`role_types=None`. -/
def applyRolePrivilegesPhase (cur : RCursor) (service_roles system_full_roles : List RoleConfig)
    (target_database now : String) : PrivPhaseResult :=
  (service_roles ++ system_full_roles).foldl
    (fun acc rc =>
      let rr := applyRolePrivileges cur rc.name rc.privileges target_database
      { acc with
        roles := insertAssoc rc.name rr acc.roles,
        summary :=
          { total_roles := acc.summary.total_roles + 1,
            successful_roles :=
              if rr.success then acc.summary.successful_roles + 1
              else acc.summary.successful_roles,
            failed_roles :=
              if rr.success then acc.summary.failed_roles
              else acc.summary.failed_roles + 1 } })
    ⟨now, target_database, [], ⟨0, 0, 0⟩⟩

/-- One entry of the configured role hierarchy. -/
structure HierarchyEntry where
  parent : String
  children : List String
deriving DecidableEq

/-- `setup_role_hierarchy` (lines 277-299): one grant per (parent, child)
edge, collected into a dict keyed by the `"parent -> child"` string. -/
def setupRoleHierarchy (cur : RCursor) (role_hierarchy : List HierarchyEntry) :
    List (String × Bool) :=
  role_hierarchy.foldl
    (fun acc h =>
      h.children.foldl
        (fun acc c =>
          insertAssoc (h.parent ++ " -> " ++ c)
            (cur.execOk ("GRANT ROLE " ++ c ++ " TO ROLE " ++ h.parent)) acc)
        acc)
    []

/-- One configured user with the roles to grant. -/
structure UserConfig where
  username : String
  roles : List String
deriving DecidableEq

/-- The per-user record built by `assign_users_to_roles`; a failed role is
recorded together with the raised error text, which the oracle does not
produce, so only the role name is kept. -/
structure UserResult where
  username : String
  assigned_roles : List String
  failed_roles : List String
  success : Bool
deriving DecidableEq

/-- The `summary` block of the user-assignment phase. -/
structure AssignSummary where
  total_assignments : Nat
  successful_assignments : Nat
  failed_assignments : Nat
deriving DecidableEq

/-- The result of `assign_users_to_roles` (lines 301-347); field order
timestamp, users, summary is the dict insertion order. -/
structure AssignResult where
  timestamp : String
  users : List (String × UserResult)
  summary : AssignSummary

/-- The inner per-role loop of `assign_users_to_roles` for one user. -/
def assignUserRoles (cur : RCursor) (username : String) (roles : List String)
    (ur : UserResult) (s : AssignSummary) : UserResult × AssignSummary :=
  roles.foldl
    (fun (p : UserResult × AssignSummary) role =>
      let ok := cur.execOk ("GRANT ROLE " ++ role ++ " TO USER " ++ username)
      let ur := p.1
      let s := p.2
      if ok then
        (({ ur with assigned_roles := ur.assigned_roles ++ [role] }),
         { s with total_assignments := s.total_assignments + 1,
                  successful_assignments := s.successful_assignments + 1 })
      else
        (({ ur with failed_roles := ur.failed_roles ++ [role], success := false }),
         { s with total_assignments := s.total_assignments + 1,
                  failed_assignments := s.failed_assignments + 1 }))
    (ur, s)

/-- `assign_users_to_roles` (lines 301-347): every configured role of every
configured user is attempted; failures are recorded per user and counted. -/
def assignUsersToRoles (cur : RCursor) (user_assignments : List UserConfig)
    (now : String) : AssignResult :=
  let step := fun (acc : List (String × UserResult) × AssignSummary) (uc : UserConfig) =>
    let init : UserResult := ⟨uc.username, [], [], true⟩
    let (ur, s) := assignUserRoles cur uc.username uc.roles init acc.2
    (insertAssoc uc.username ur acc.1, s)
  let p := user_assignments.foldl step ([], ⟨0, 0, 0⟩)
  ⟨now, p.1, p.2⟩

end Rbac

namespace Rbac

/-- The full RBAC configuration slice read by `complete_rbac_setup`.
`user_assignments = none` models an absent or falsy `user_assignments` config
(phase 5 skipped); `some users` models a truthy config whose `example_users`
list is `users`. -/
structure RbacConfig where
  service_roles : List RoleConfig
  system_full_roles : List RoleConfig
  role_hierarchy : List HierarchyEntry
  user_assignments : Option (List UserConfig)

/-- The `phases` mapping of a setup result, in insertion order. -/
structure Phases where
  service_roles : List (String × Bool)
  system_full_roles : List (String × Bool)
  privileges : PrivPhaseResult
  hierarchy : List (String × Bool)
  user_assignments : Option AssignResult

/-- The result of `complete_rbac_setup`. `failed_phases = []` models the
absent key (the source only sets it when non-empty). -/
structure SetupResult where
  timestamp : String
  target_database : String
  phases : Phases
  overall_success : Bool
  failed_phases : List String

/-- Failure test applied by `complete_rbac_setup` (lines 389-396) to a phase
result that is a plain role-name → bool dict: the first branch key test
(`"summary" in result`) is false for such dicts (no role or edge in this
model is literally named `summary`; a role so named would make the source
raise into its outer `except` instead), so the final `elif` applies and the
phase is failed iff some value is `False`. -/
def roleMapFailed (m : List (String × Bool)) : Bool :=
  !(m.all (fun p => p.2))

/-- Failure test for the privileges phase result (lines 391-396): it has a
`summary` key, so `failed_roles > 0` fails the phase; otherwise the final
`elif` checks `not all(result.values())` over the values timestamp,
target_database, roles, summary in insertion order — the summary dict is
non-empty hence always truthy, strings are truthy iff non-empty, the roles
dict is truthy iff non-empty. -/
def privPhaseFailed (p : PrivPhaseResult) : Bool :=
  if 0 < p.summary.failed_roles then true
  else !(p.timestamp != "" && p.target_database != "" && !p.roles.isEmpty)

/-- Failure test for the user-assignments phase result: it has a `summary`
key but no `failed_roles` entry, so `summary.get("failed_roles", 0) > 0` is
always false and the final `elif` checks truthiness of timestamp, users,
summary — individual failed user assignments sit inside always-truthy
per-user dicts and never fail the phase. -/
def assignPhaseFailed (a : AssignResult) : Bool :=
  !(a.timestamp != "" && !a.users.isEmpty)

/-- `if b then [name] else []`: the contribution of one phase to the
`failed_phases` list. -/
def phaseFlag (b : Bool) (name : String) : List String :=
  if b then [name] else []

/-- `complete_rbac_setup` (lines 349-410): the five phases run
unconditionally in order (phase 5 only when the user-assignments config is
truthy), then the failure check walks the phases dict in insertion order and
collects failed phase names; `overall_success` is flipped to false exactly
when that list is non-empty. -/
def completeRbacSetup (cur : RCursor) (cfg : RbacConfig) (target_database now : String) :
    SetupResult :=
  let sr := createRolesPhase cur cfg.service_roles
  let fr := createRolesPhase cur cfg.system_full_roles
  let pv := applyRolePrivilegesPhase cur cfg.service_roles cfg.system_full_roles
    target_database now
  let hi := setupRoleHierarchy cur cfg.role_hierarchy
  let ua := cfg.user_assignments.map (fun users => assignUsersToRoles cur users now)
  let failed :=
    phaseFlag (roleMapFailed sr) "service_roles" ++
    phaseFlag (roleMapFailed fr) "system_full_roles" ++
    phaseFlag (privPhaseFailed pv) "privileges" ++
    phaseFlag (roleMapFailed hi) "hierarchy" ++
    (match ua with
     | some a => phaseFlag (assignPhaseFailed a) "user_assignments"
     | none => [])
  { timestamp := now,
    target_database := target_database,
    phases := ⟨sr, fr, pv, hi, ua⟩,
    overall_success := failed.isEmpty,
    failed_phases := failed }

/-- Role metadata stored in the audit `roles` mapping. -/
structure RoleMeta where
  created_on : String
  owner : Option String
  comment : Option String
deriving DecidableEq

/-- A grant record stored in the audit `grants` mapping (the dict built at
lines 451-457 from a grant row). -/
structure GrantInfo where
  privilege : String
  granted_on : String
  name : String
  granted_to : Option String
  grantee_name : Option String
deriving DecidableEq

/-- The `summary` block of an audit result. -/
structure AuditSummary where
  total_roles : Nat
  roles_with_grants : Nat
  users_with_roles : Nat
deriving DecidableEq

/-- The result of `audit_rbac_configuration`; the `users` mapping of the
source is initialised empty and never written, so it is omitted; `errored`
models the presence of the `error` key set by the outer `except`. -/
structure AuditResult where
  timestamp : String
  target_database : String
  roles : List (String × RoleMeta)
  grants : List (String × List GrantInfo)
  summary : AuditSummary
  errored : Bool

/-- The mapping of one grant row into the stored grant record. -/
def toGrantInfo (g : GrantRow) : GrantInfo :=
  ⟨g.privilege, g.granted_on, g.name, g.granted_to, g.grantee_name⟩

/-- The per-role grant-listing loop of the audit (lines 444-465) over the
distinct role names: a role whose listing raises is skipped with a warning; a
role with a non-empty listing is added to the grants mapping and counted.
The keys come from a dict, hence are distinct, so plain prepending agrees
with dict insertion. -/
def auditGrantsLoop (cur : RCursor) : List String → List (String × List GrantInfo) × Nat
  | [] => ([], 0)
  | k :: rest =>
    let tail := auditGrantsLoop cur rest
    match cur.showGrants k with
    | none => tail
    | some grows =>
      let rg := grows.map toGrantInfo
      if rg.isEmpty then tail
      else ((k, rg) :: tail.1, tail.2 + 1)

/-- `audit_rbac_configuration` (lines 412-471): if `SHOW ROLES` raises, the
outer `except` records the error and the otherwise-empty result is returned;
otherwise every row is inserted into the roles dict (which dedups names) and
counted into `total_roles`, then the grants loop runs over the dict keys. -/
def auditRbacConfiguration (cur : RCursor) (target_database now : String) : AuditResult :=
  match cur.showRoles with
  | none =>
    { timestamp := now, target_database := target_database, roles := [], grants := [],
      summary := ⟨0, 0, 0⟩, errored := true }
  | some rows =>
    let roles := rows.foldl
      (fun acc r => insertAssoc r.name ⟨r.created_on, r.owner, r.comment⟩ acc) []
    let keys := roles.map (fun p => p.1)
    let gr := auditGrantsLoop cur keys
    { timestamp := now, target_database := target_database, roles := roles,
      grants := gr.1, summary := ⟨rows.length, gr.2, 0⟩, errored := false }

end Rbac

/-- A cursor whose every statement succeeds and whose queries return no rows:
the concrete warehouse oracle used by witnesses and counterexamples. -/
def curTrue : CloneFW.Cursor := ⟨fun _ => true, fun _ => none⟩

/-- Claim C10: for every call of clone_database with a clone_type string that
is not equal to AT_TIME after upper-casing, the engine issues a plain clone
instruction with no AT clause and performs no validation or rejection of the
mode value — the call returns the plain execution outcome. -/
theorem clone_database_unknown_mode_plain (cur : CloneFW.Cursor) (cfg : CloneFW.Config)
    (s t ct : String) (h : pyUpper ct ≠ "AT_TIME") :
    CloneFW.cloneDatabaseSQL cfg s t ct = "CREATE DATABASE " ++ t ++ " CLONE " ++ s ∧
    CloneFW.cloneDatabase cur cfg s t ct =
      cur.execOk ("CREATE DATABASE " ++ t ++ " CLONE " ++ s) := by
  unfold CloneFW.cloneDatabase CloneFW.cloneDatabaseSQL
  simp [h]

/-- Witness for C10 at the concrete mode FULL_COPY. -/
theorem clone_database_unknown_mode_plain_witness :
    CloneFW.cloneDatabaseSQL ⟨none⟩ "PROD" "DEV" "FULL_COPY" =
      "CREATE DATABASE " ++ "DEV" ++ " CLONE " ++ "PROD" ∧
    CloneFW.cloneDatabase curTrue ⟨none⟩ "PROD" "DEV" "FULL_COPY" =
      curTrue.execOk ("CREATE DATABASE " ++ "DEV" ++ " CLONE " ++ "PROD") :=
  clone_database_unknown_mode_plain curTrue ⟨none⟩ "PROD" "DEV" "FULL_COPY" (by decide)

/-- Counterexample to claim C6: with mode AT_TIME and no timestamp configured
(nor any per-call timestamp parameter, which clone_database does not even
accept), the call does NOT fail with a ConfigurationError — no such error
exists in the code; it issues the plain clone statement and completes,
returning true under a succeeding cursor. -/
theorem clone_database_missing_timestamp_counterexample :
    CloneFW.cloneDatabaseSQL ⟨none⟩ "PROD_DATALAKE" "DEV" "AT_TIME" =
      "CREATE DATABASE DEV CLONE PROD_DATALAKE" ∧
    CloneFW.cloneDatabase curTrue ⟨none⟩ "PROD_DATALAKE" "DEV" "AT_TIME" = true := by
  constructor
  · rfl
  · rfl

/-- Claim C6 as amended: for every call of clone_database with mode AT_TIME
where no timestamp is supplied by the ambient configuration, the operation
does not fail: it silently issues a plain clone instruction with no AT clause
and returns the execution outcome as a boolean. -/
theorem clone_database_missing_timestamp_amended (cur : CloneFW.Cursor)
    (cfg : CloneFW.Config) (s t : String) (h : cfg.at_time = none) :
    CloneFW.cloneDatabaseSQL cfg s t "AT_TIME" = "CREATE DATABASE " ++ t ++ " CLONE " ++ s ∧
    CloneFW.cloneDatabase cur cfg s t "AT_TIME" =
      cur.execOk ("CREATE DATABASE " ++ t ++ " CLONE " ++ s) := by
  unfold CloneFW.cloneDatabase CloneFW.cloneDatabaseSQL
  rw [h]
  simp

/-- Witness for the amended C6 at a concrete configuration. -/
theorem clone_database_missing_timestamp_amended_witness :
    CloneFW.cloneDatabaseSQL ⟨none⟩ "PROD" "STAGE" "AT_TIME" =
      "CREATE DATABASE " ++ "STAGE" ++ " CLONE " ++ "PROD" ∧
    CloneFW.cloneDatabase curTrue ⟨none⟩ "PROD" "STAGE" "AT_TIME" =
      curTrue.execOk ("CREATE DATABASE " ++ "STAGE" ++ " CLONE " ++ "PROD") :=
  clone_database_missing_timestamp_amended curTrue ⟨none⟩ "PROD" "STAGE" rfl

/-- Claim C5: validate_clone_operation returns overall_status SUCCESS iff all
three checks pass; the individual check flags are retained either way, and a
run where the lineage lookup returns no matching edge yields FAILED even when
both objects are describable. -/
theorem validate_clone_success_iff (cur : CloneFW.Cursor) (s t : String) :
    ((CloneFW.validateCloneOperation cur s t).overall_status = "SUCCESS" ↔
      ((CloneFW.validateCloneOperation cur s t).checks.source_accessible = true ∧
       (CloneFW.validateCloneOperation cur s t).checks.target_exists = true ∧
       (CloneFW.validateCloneOperation cur s t).checks.clone_relationship = true)) ∧
    ((CloneFW.validateCloneOperation cur s t).overall_status = "SUCCESS" ∨
     (CloneFW.validateCloneOperation cur s t).overall_status = "FAILED") ∧
    ((∀ c ∈ CloneFW.getCloneHistory cur (some t),
        ¬(c.source_object = s ∧ c.clone_object = t)) →
      (CloneFW.validateCloneOperation cur s t).overall_status = "FAILED") := by
  unfold CloneFW.validateCloneOperation
  refine ⟨?_, ?_, ?_⟩
  · cases hs : cur.execOk ("DESCRIBE " ++ s) <;>
      cases ht : cur.execOk ("DESCRIBE " ++ t) <;>
      cases hr : (CloneFW.getCloneHistory cur (some t)).any
        (fun c => c.source_object == s && c.clone_object == t) <;>
      simp [hs, ht, hr]
  · cases hs : cur.execOk ("DESCRIBE " ++ s) <;>
      cases ht : cur.execOk ("DESCRIBE " ++ t) <;>
      cases hr : (CloneFW.getCloneHistory cur (some t)).any
        (fun c => c.source_object == s && c.clone_object == t) <;>
      simp [hs, ht, hr]
  · intro h
    have hr : (CloneFW.getCloneHistory cur (some t)).any
        (fun c => c.source_object == s && c.clone_object == t) = false := by
      rw [List.any_eq_false]
      intro c hc
      have := h c hc
      simp only [Bool.and_eq_true, beq_iff_eq]
      intro hcon
      exact this ⟨hcon.1, hcon.2⟩
    simp [hr]

/-- A cursor for the C5 witness: both objects describable, lineage listing
non-empty but containing no edge from PROD.DB to DEV.DB. -/
def curC5 : CloneFW.Cursor :=
  ⟨fun _ => true, fun _ => some [⟨"OTHER.DB", "DEV.DB", "2024-01-01", none⟩]⟩

/-- Witness for C5: with both objects describable and no matching lineage
edge, validation yields FAILED. -/
theorem validate_clone_success_iff_witness :
    (CloneFW.validateCloneOperation curC5 "PROD.DB" "DEV.DB").overall_status = "FAILED" :=
  (validate_clone_success_iff curC5 "PROD.DB" "DEV.DB").2.2 (by decide)

namespace CloneFW

/-- A fold whose step updates the summary by `bump` commutes with projecting
the summary. -/
theorem foldl_summary {α : Type} (proc : BulkResults → α → BulkResults) (okf : α → Bool)
    (h : ∀ acc a, (proc acc a).summary = bump acc.summary (okf a)) (l : List α)
    (acc : BulkResults) :
    (l.foldl proc acc).summary = l.foldl (fun s a => bump s (okf a)) acc.summary := by
  induction l generalizing acc with
  | nil => rfl
  | cons a rest ih => simp only [List.foldl, ih, h]


/-- Total counter of a bump fold. -/
theorem bumpFold_total {α : Type} (okf : α → Bool) (l : List α) (s : Summary) :
    (l.foldl (fun s a => bump s (okf a)) s).total_operations =
      s.total_operations + l.length := by
  induction l generalizing s with
  | nil => simp
  | cons a rest ih =>
    rw [List.foldl_cons, ih, List.length_cons]
    simp only [bump]
    omega

/-- Success counter of a bump fold. -/
theorem bumpFold_succ {α : Type} (okf : α → Bool) (l : List α) (s : Summary) :
    (l.foldl (fun s a => bump s (okf a)) s).successful_operations =
      s.successful_operations + l.countP okf := by
  induction l generalizing s with
  | nil => simp
  | cons a rest ih =>
    rw [List.foldl_cons, ih, List.countP_cons]
    cases h : okf a
    · simp [bump, h]
    · simp [bump, h]
      omega

/-- Failure counter of a bump fold. -/
theorem bumpFold_failed {α : Type} (okf : α → Bool) (l : List α) (s : Summary) :
    (l.foldl (fun s a => bump s (okf a)) s).failed_operations =
      s.failed_operations + l.countP (fun a => !okf a) := by
  induction l generalizing s with
  | nil => simp
  | cons a rest ih =>
    rw [List.foldl_cons, ih, List.countP_cons]
    cases h : okf a
    · simp [bump, h]
      omega
    · simp [bump, h]

/-- Counting hits and misses of a boolean predicate partitions a list. -/
theorem countP_add_not {α : Type} (p : α → Bool) (l : List α) :
    l.countP p + l.countP (fun a => !p a) = l.length := by
  induction l with
  | nil => simp
  | cons a rest ih =>
    rw [List.countP_cons, List.countP_cons, List.length_cons]
    cases h : p a
    · simp [h]
      omega
    · simp [h]
      omega

/-- The summary of a bulk run is the bump fold of the three request lists. -/
theorem bulk_summary_eq (cur : Cursor) (cfg : Config) (op : OpConfig) :
    (bulkCloneOperation cur cfg op).summary =
      op.tables.foldl (fun s x => bump s (tblOk cur x))
        (op.schemas.foldl (fun s x => bump s (schOk cur x))
          (op.databases.foldl (fun s x => bump s (dbOk cur cfg x)) ⟨0, 0, 0⟩)) := by
  unfold bulkCloneOperation
  rw [foldl_summary (processTable cur) (tblOk cur) (fun _ _ => rfl),
      foldl_summary (processSchema cur) (schOk cur) (fun _ _ => rfl),
      foldl_summary (processDb cur cfg) (dbOk cur cfg) (fun _ _ => rfl)]

end CloneFW

/-- Claim C1: for every operation set with N requests across the databases,
schemas and tables lists, bulk_clone_operation executes every request
unconditionally regardless of earlier failures — each request is counted by
its own outcome oracle, independently of the others — and the summary
satisfies total_operations = successful_operations + failed_operations = N. -/
theorem bulk_clone_summary_counts (cur : CloneFW.Cursor) (cfg : CloneFW.Config)
    (op : CloneFW.OpConfig) :
    (CloneFW.bulkCloneOperation cur cfg op).summary.total_operations =
      op.databases.length + op.schemas.length + op.tables.length ∧
    (CloneFW.bulkCloneOperation cur cfg op).summary.successful_operations +
        (CloneFW.bulkCloneOperation cur cfg op).summary.failed_operations =
      op.databases.length + op.schemas.length + op.tables.length ∧
    (CloneFW.bulkCloneOperation cur cfg op).summary.successful_operations =
      op.databases.countP (CloneFW.dbOk cur cfg) + op.schemas.countP (CloneFW.schOk cur) +
        op.tables.countP (CloneFW.tblOk cur) ∧
    (CloneFW.bulkCloneOperation cur cfg op).summary.failed_operations =
      op.databases.countP (fun x => !CloneFW.dbOk cur cfg x) +
        op.schemas.countP (fun x => !CloneFW.schOk cur x) +
        op.tables.countP (fun x => !CloneFW.tblOk cur x) := by
  rw [CloneFW.bulk_summary_eq]
  have h1 : (CloneFW.Summary.mk 0 0 0).total_operations = 0 := rfl
  refine ⟨?_, ?_, ?_, ?_⟩
  · rw [CloneFW.bumpFold_total, CloneFW.bumpFold_total, CloneFW.bumpFold_total, h1]
    omega
  · rw [CloneFW.bumpFold_succ, CloneFW.bumpFold_succ, CloneFW.bumpFold_succ,
        CloneFW.bumpFold_failed, CloneFW.bumpFold_failed, CloneFW.bumpFold_failed]
    have hd := CloneFW.countP_add_not (CloneFW.dbOk cur cfg) op.databases
    have hs := CloneFW.countP_add_not (CloneFW.schOk cur) op.schemas
    have ht := CloneFW.countP_add_not (CloneFW.tblOk cur) op.tables
    have h2 : (CloneFW.Summary.mk 0 0 0).successful_operations = 0 := rfl
    have h3 : (CloneFW.Summary.mk 0 0 0).failed_operations = 0 := rfl
    rw [h2, h3]
    omega
  · rw [CloneFW.bumpFold_succ, CloneFW.bumpFold_succ, CloneFW.bumpFold_succ]
    have h2 : (CloneFW.Summary.mk 0 0 0).successful_operations = 0 := rfl
    rw [h2]
    omega
  · rw [CloneFW.bumpFold_failed, CloneFW.bumpFold_failed, CloneFW.bumpFold_failed]
    have h3 : (CloneFW.Summary.mk 0 0 0).failed_operations = 0 := rfl
    rw [h3]
    omega

/-- Claim C7: two distinct table requests in the same operation set resolving
to the same target identity key are both executed and both counted in the
summary, but the per-item report map retains only the later request outcome,
so total_operations (2) exceeds the number of map entries (1). -/
theorem bulk_clone_key_collision (cur : CloneFW.Cursor) (cfg : CloneFW.Config)
    (t1 t2 : CloneFW.TableCfg) (_hne : t1 ≠ t2) (hk : CloneFW.tblKey t1 = CloneFW.tblKey t2) :
    (CloneFW.bulkCloneOperation cur cfg ⟨[], [], [t1, t2]⟩).summary.total_operations = 2 ∧
    (CloneFW.bulkCloneOperation cur cfg ⟨[], [], [t1, t2]⟩).summary.successful_operations =
      (if CloneFW.tblOk cur t1 then 1 else 0) + (if CloneFW.tblOk cur t2 then 1 else 0) ∧
    (CloneFW.bulkCloneOperation cur cfg ⟨[], [], [t1, t2]⟩).summary.successful_operations +
      (CloneFW.bulkCloneOperation cur cfg ⟨[], [], [t1, t2]⟩).summary.failed_operations = 2 ∧
    (CloneFW.bulkCloneOperation cur cfg ⟨[], [], [t1, t2]⟩).tables =
      [(CloneFW.tblKey t1, ⟨CloneFW.tblSource t2, CloneFW.tblOk cur t2⟩)] ∧
    (CloneFW.bulkCloneOperation cur cfg ⟨[], [], [t1, t2]⟩).tables.length = 1 := by
  have hs : (CloneFW.bulkCloneOperation cur cfg ⟨[], [], [t1, t2]⟩).summary =
      CloneFW.bump (CloneFW.bump ⟨0, 0, 0⟩ (CloneFW.tblOk cur t1)) (CloneFW.tblOk cur t2) := rfl
  have hm : (CloneFW.bulkCloneOperation cur cfg ⟨[], [], [t1, t2]⟩).tables =
      insertAssoc (CloneFW.tblKey t2) ⟨CloneFW.tblSource t2, CloneFW.tblOk cur t2⟩
        (insertAssoc (CloneFW.tblKey t1) ⟨CloneFW.tblSource t1, CloneFW.tblOk cur t1⟩ []) := rfl
  have hmap : (CloneFW.bulkCloneOperation cur cfg ⟨[], [], [t1, t2]⟩).tables =
      [(CloneFW.tblKey t1, ⟨CloneFW.tblSource t2, CloneFW.tblOk cur t2⟩)] := by
    rw [hm]
    simp only [insertAssoc]
    rw [if_pos hk]
  refine ⟨?_, ?_, ?_, hmap, ?_⟩
  · rw [hs]
    cases h1 : CloneFW.tblOk cur t1 <;> cases h2 : CloneFW.tblOk cur t2 <;>
      simp [CloneFW.bump, h1, h2]
  · rw [hs]
    cases h1 : CloneFW.tblOk cur t1 <;> cases h2 : CloneFW.tblOk cur t2 <;>
      simp [CloneFW.bump, h1, h2]
  · rw [hs]
    cases h1 : CloneFW.tblOk cur t1 <;> cases h2 : CloneFW.tblOk cur t2 <;>
      simp [CloneFW.bump, h1, h2]
  · rw [hmap]
    rfl

/-- Witness for C7: two distinct table requests (different source databases)
resolving to the same target key DEV.S.T. -/
theorem bulk_clone_key_collision_witness :
    (CloneFW.bulkCloneOperation curTrue ⟨none⟩
      ⟨[], [], [⟨"P1", "S", "T", "DEV", none, none⟩,
                ⟨"P2", "S", "T", "DEV", none, none⟩]⟩).summary.total_operations = 2 ∧
    (CloneFW.bulkCloneOperation curTrue ⟨none⟩
      ⟨[], [], [⟨"P1", "S", "T", "DEV", none, none⟩,
                ⟨"P2", "S", "T", "DEV", none, none⟩]⟩).summary.successful_operations =
      (if CloneFW.tblOk curTrue ⟨"P1", "S", "T", "DEV", none, none⟩ then 1 else 0) +
        (if CloneFW.tblOk curTrue ⟨"P2", "S", "T", "DEV", none, none⟩ then 1 else 0) ∧
    (CloneFW.bulkCloneOperation curTrue ⟨none⟩
      ⟨[], [], [⟨"P1", "S", "T", "DEV", none, none⟩,
                ⟨"P2", "S", "T", "DEV", none, none⟩]⟩).summary.successful_operations +
      (CloneFW.bulkCloneOperation curTrue ⟨none⟩
        ⟨[], [], [⟨"P1", "S", "T", "DEV", none, none⟩,
                  ⟨"P2", "S", "T", "DEV", none, none⟩]⟩).summary.failed_operations = 2 ∧
    (CloneFW.bulkCloneOperation curTrue ⟨none⟩
      ⟨[], [], [⟨"P1", "S", "T", "DEV", none, none⟩,
                ⟨"P2", "S", "T", "DEV", none, none⟩]⟩).tables =
      [(CloneFW.tblKey ⟨"P1", "S", "T", "DEV", none, none⟩,
        ⟨CloneFW.tblSource ⟨"P2", "S", "T", "DEV", none, none⟩,
         CloneFW.tblOk curTrue ⟨"P2", "S", "T", "DEV", none, none⟩⟩)] ∧
    (CloneFW.bulkCloneOperation curTrue ⟨none⟩
      ⟨[], [], [⟨"P1", "S", "T", "DEV", none, none⟩,
                ⟨"P2", "S", "T", "DEV", none, none⟩]⟩).tables.length = 1 :=
  bulk_clone_key_collision curTrue ⟨none⟩ ⟨"P1", "S", "T", "DEV", none, none⟩
    ⟨"P2", "S", "T", "DEV", none, none⟩ (by decide) (by decide)

/-- A list whose occurrence scan fails is returned unchanged by the fuelled
replacer, for any sufficient fuel. -/
theorem listReplaceF_not_contains (pat rep : List Char) (fuel : Nat) (l : List Char)
    (hf : l.length ≤ fuel) (h : containsSub pat l = false) :
    listReplaceF pat rep fuel l = l := by
  induction fuel generalizing l with
  | zero =>
    cases l with
    | nil => rfl
    | cons c rest => simp at hf
  | succ n ih =>
    cases l with
    | nil => rfl
    | cons c rest =>
      have h2 : pat.isPrefixOf (c :: rest) = false ∧ containsSub pat rest = false := by
        simpa [containsSub] using h
      have hlen : rest.length ≤ n := by
        simp only [List.length_cons] at hf
        omega
      simp [listReplaceF, h2.1, ih rest hlen h2.2]

/-- Python str.replace leaves a string without any occurrence of the pattern
unchanged. -/
theorem strReplace_no_occurrence (s pat rep : String)
    (h : containsSub pat.data s.data = false) : strReplace s pat rep = s := by
  unfold strReplace listReplace
  rw [listReplaceF_not_contains pat.data rep.data s.data.length s.data le_rfl h]

/-- Claim C4: privilege expansion replaces every occurrence of the literal
placeholder with the target database by a plain string replace — expanding
the pattern of the claim with target DEV yields exactly DEV.PUBLIC.*; a
pattern with no occurrence of the placeholder is returned unchanged; and
warehouse object patterns are never passed through substitution at all (the
grant recorded for a warehouse entry uses the raw object list verbatim). -/
theorem substitute_variables_spec :
    Rbac.substituteVariables ["$\x7bTARGET_DATABASE\x7d.PUBLIC.*"] "DEV" = ["DEV.PUBLIC.*"] ∧
    (∀ (td : String) (objs : List String),
      (∀ obj ∈ objs, containsSub Rbac.targetDbPlaceholder.data obj.data = false) →
      Rbac.substituteVariables objs td = objs) ∧
    (∀ (cur : Rbac.RCursor) (role td p : String) (objs : List String),
      (Rbac.applyRolePrivileges cur role ⟨[], [], [], [], [⟨p, objs⟩]⟩ td).success =
        Rbac.grantPrivilege cur p "WAREHOUSE" objs role) := by
  refine ⟨by decide, ?_, ?_⟩
  · intro td objs h
    unfold Rbac.substituteVariables
    induction objs with
    | nil => rfl
    | cons o rest ih =>
      rw [List.map_cons]
      rw [strReplace_no_occurrence o Rbac.targetDbPlaceholder td (h o (by simp))]
      rw [ih (fun obj hm => h obj (by simp [hm]))]
  · intro cur role td p objs
    unfold Rbac.applyRolePrivileges Rbac.applyGroup
    cases hok : Rbac.grantPrivilege cur p "WAREHOUSE" objs role <;>
      simp [List.foldl, hok]

/-- Witness for C4: a pattern with no placeholder occurrence passes through
unchanged at a concrete input. -/
theorem substitute_variables_spec_witness :
    Rbac.substituteVariables ["ANALYTICS_WH"] "DEV" = ["ANALYTICS_WH"] :=
  substitute_variables_spec.2.1 "DEV" ["ANALYTICS_WH"] (by decide)

namespace Rbac

/-- Outcome of one privilege entry of a block: the grant instruction issued
for its (resolved) object list. -/
def entryOk (cur : RCursor) (role otype : String) (resolve : List String → List String)
    (e : PrivEntry) : Bool :=
  grantPrivilege cur e.privilege otype (resolve e.objects) role

/-- Unfolding one entry of a block. -/
theorem applyGroup_cons (cur : RCursor) (role ptype otype : String)
    (resolve : List String → List String) (e : PrivEntry) (rest : List PrivEntry)
    (r : RoleResult) :
    applyGroup cur role ptype otype resolve (e :: rest) r =
      applyGroup cur role ptype otype resolve rest
        (if entryOk cur role otype resolve e then
          { r with
            applied_privileges := r.applied_privileges ++ [⟨ptype, e.privilege, e.objects⟩] }
        else
          { r with
            failed_privileges := r.failed_privileges ++ [⟨ptype, e.privilege, e.objects⟩],
            success := false }) := rfl

/-- The success flag after one block: the incoming flag conjoined with every
entry of the block succeeding. -/
theorem applyGroup_success (cur : RCursor) (role ptype otype : String)
    (resolve : List String → List String) (entries : List PrivEntry) (r : RoleResult) :
    (applyGroup cur role ptype otype resolve entries r).success =
      (r.success && entries.all (entryOk cur role otype resolve)) := by
  induction entries generalizing r with
  | nil => simp [applyGroup]
  | cons e rest ih =>
    rw [applyGroup_cons, ih, List.all_cons]
    cases h : entryOk cur role otype resolve e
    · simp [h]
    · simp [h]

/-- The applied list after one block: the incoming list extended by the
entries whose grant succeeded, in order. -/
theorem applyGroup_applied (cur : RCursor) (role ptype otype : String)
    (resolve : List String → List String) (entries : List PrivEntry) (r : RoleResult) :
    (applyGroup cur role ptype otype resolve entries r).applied_privileges =
      r.applied_privileges ++
        (entries.filter (entryOk cur role otype resolve)).map
          (fun e => ⟨ptype, e.privilege, e.objects⟩) := by
  induction entries generalizing r with
  | nil => simp [applyGroup]
  | cons e rest ih =>
    rw [applyGroup_cons, ih, List.filter_cons]
    cases h : entryOk cur role otype resolve e
    · simp [h]
    · simp [h]

/-- The failed list after one block: the incoming list extended by the
entries whose grant failed, in order. -/
theorem applyGroup_failed (cur : RCursor) (role ptype otype : String)
    (resolve : List String → List String) (entries : List PrivEntry) (r : RoleResult) :
    (applyGroup cur role ptype otype resolve entries r).failed_privileges =
      r.failed_privileges ++
        (entries.filter (fun e => !entryOk cur role otype resolve e)).map
          (fun e => ⟨ptype, e.privilege, e.objects⟩) := by
  induction entries generalizing r with
  | nil => simp [applyGroup]
  | cons e rest ih =>
    rw [applyGroup_cons, ih, List.filter_cons]
    cases h : entryOk cur role otype resolve e
    · simp [h]
    · simp [h]

/-- A boolean all-scan succeeds exactly when the filter by the negated
predicate is empty. -/
theorem all_eq_filter_not_nil {α : Type} (p : α → Bool) (l : List α) :
    (l.all p = true) ↔ l.filter (fun a => !p a) = [] := by
  induction l with
  | nil => simp
  | cons a rest ih =>
    rw [List.all_cons, List.filter_cons]
    cases h : p a <;> simp [h, ih]

/-- Specification-side predicate (from the words of the spec, for comparison
with the code): every grant instruction attempted for the role succeeded —
database, schema, table and view object lists after placeholder substitution,
warehouse object lists verbatim. -/
def specEveryGrantSucceeds (cur : RCursor) (role : String) (privs : Privileges)
    (td : String) : Bool :=
  let sub := fun objs => substituteVariables objs td
  privs.databases.all (fun e => grantPrivilege cur e.privilege "DATABASE" (sub e.objects) role) &&
  privs.schemas.all (fun e => grantPrivilege cur e.privilege "SCHEMA" (sub e.objects) role) &&
  privs.tables.all (fun e => grantPrivilege cur e.privilege "TABLE" (sub e.objects) role) &&
  privs.views.all (fun e => grantPrivilege cur e.privilege "VIEW" (sub e.objects) role) &&
  privs.warehouses.all (fun e => grantPrivilege cur e.privilege "WAREHOUSE" e.objects role)

/-- Number of configured privilege entries of a role. -/
def privTotal (p : Privileges) : Nat :=
  p.databases.length + p.schemas.length + p.tables.length + p.views.length +
    p.warehouses.length

end Rbac

/-- Claim C3: the per-role result of the privileges phase has success true iff
every grant attempted for that role succeeded; a failure in one grant does not
prevent the remaining grants from being attempted — all entries end up
recorded, the successful ones in applied_privileges and the failed ones in
failed_privileges, so their counts always sum to the number of configured
entries. -/
theorem role_privileges_success_iff (cur : Rbac.RCursor) (role td : String)
    (privs : Rbac.Privileges) :
    ((Rbac.applyRolePrivileges cur role privs td).success =
      Rbac.specEveryGrantSucceeds cur role privs td) ∧
    ((Rbac.applyRolePrivileges cur role privs td).applied_privileges.length +
      (Rbac.applyRolePrivileges cur role privs td).failed_privileges.length =
        Rbac.privTotal privs) ∧
    ((Rbac.applyRolePrivileges cur role privs td).success = true ↔
      (Rbac.applyRolePrivileges cur role privs td).failed_privileges = []) := by
  have hdef : Rbac.applyRolePrivileges cur role privs td =
      Rbac.applyGroup cur role "warehouse" "WAREHOUSE" (fun objs => objs) privs.warehouses
        (Rbac.applyGroup cur role "view" "VIEW"
          (fun objs => Rbac.substituteVariables objs td) privs.views
          (Rbac.applyGroup cur role "table" "TABLE"
            (fun objs => Rbac.substituteVariables objs td) privs.tables
            (Rbac.applyGroup cur role "schema" "SCHEMA"
              (fun objs => Rbac.substituteVariables objs td) privs.schemas
              (Rbac.applyGroup cur role "database" "DATABASE"
                (fun objs => Rbac.substituteVariables objs td) privs.databases
                ⟨role, true, [], [], []⟩)))) := rfl
  have hsucc : (Rbac.applyRolePrivileges cur role privs td).success =
      Rbac.specEveryGrantSucceeds cur role privs td := by
    rw [hdef, Rbac.applyGroup_success, Rbac.applyGroup_success, Rbac.applyGroup_success,
      Rbac.applyGroup_success, Rbac.applyGroup_success]
    simp only [Rbac.specEveryGrantSucceeds, Bool.true_and, Bool.and_assoc]
    rfl
  have happ : (Rbac.applyRolePrivileges cur role privs td).applied_privileges =
      (privs.databases.filter (Rbac.entryOk cur role "DATABASE"
          (fun objs => Rbac.substituteVariables objs td))).map
        (fun e => ⟨"database", e.privilege, e.objects⟩) ++
      (privs.schemas.filter (Rbac.entryOk cur role "SCHEMA"
          (fun objs => Rbac.substituteVariables objs td))).map
        (fun e => ⟨"schema", e.privilege, e.objects⟩) ++
      (privs.tables.filter (Rbac.entryOk cur role "TABLE"
          (fun objs => Rbac.substituteVariables objs td))).map
        (fun e => ⟨"table", e.privilege, e.objects⟩) ++
      (privs.views.filter (Rbac.entryOk cur role "VIEW"
          (fun objs => Rbac.substituteVariables objs td))).map
        (fun e => ⟨"view", e.privilege, e.objects⟩) ++
      (privs.warehouses.filter (Rbac.entryOk cur role "WAREHOUSE" (fun objs => objs))).map
        (fun e => ⟨"warehouse", e.privilege, e.objects⟩) := by
    rw [hdef, Rbac.applyGroup_applied, Rbac.applyGroup_applied, Rbac.applyGroup_applied,
      Rbac.applyGroup_applied, Rbac.applyGroup_applied]
    simp [List.append_assoc]
  have hfail : (Rbac.applyRolePrivileges cur role privs td).failed_privileges =
      (privs.databases.filter (fun e => !Rbac.entryOk cur role "DATABASE"
          (fun objs => Rbac.substituteVariables objs td) e)).map
        (fun e => ⟨"database", e.privilege, e.objects⟩) ++
      (privs.schemas.filter (fun e => !Rbac.entryOk cur role "SCHEMA"
          (fun objs => Rbac.substituteVariables objs td) e)).map
        (fun e => ⟨"schema", e.privilege, e.objects⟩) ++
      (privs.tables.filter (fun e => !Rbac.entryOk cur role "TABLE"
          (fun objs => Rbac.substituteVariables objs td) e)).map
        (fun e => ⟨"table", e.privilege, e.objects⟩) ++
      (privs.views.filter (fun e => !Rbac.entryOk cur role "VIEW"
          (fun objs => Rbac.substituteVariables objs td) e)).map
        (fun e => ⟨"view", e.privilege, e.objects⟩) ++
      (privs.warehouses.filter
          (fun e => !Rbac.entryOk cur role "WAREHOUSE" (fun objs => objs) e)).map
        (fun e => ⟨"warehouse", e.privilege, e.objects⟩) := by
    rw [hdef, Rbac.applyGroup_failed, Rbac.applyGroup_failed, Rbac.applyGroup_failed,
      Rbac.applyGroup_failed, Rbac.applyGroup_failed]
    simp [List.append_assoc]
  refine ⟨hsucc, ?_, ?_⟩
  · rw [happ, hfail]
    simp only [List.length_append, List.length_map]
    have h1 := CloneFW.countP_add_not (Rbac.entryOk cur role "DATABASE"
      (fun objs => Rbac.substituteVariables objs td)) privs.databases
    have h2 := CloneFW.countP_add_not (Rbac.entryOk cur role "SCHEMA"
      (fun objs => Rbac.substituteVariables objs td)) privs.schemas
    have h3 := CloneFW.countP_add_not (Rbac.entryOk cur role "TABLE"
      (fun objs => Rbac.substituteVariables objs td)) privs.tables
    have h4 := CloneFW.countP_add_not (Rbac.entryOk cur role "VIEW"
      (fun objs => Rbac.substituteVariables objs td)) privs.views
    have h5 := CloneFW.countP_add_not (Rbac.entryOk cur role "WAREHOUSE"
      (fun objs => objs)) privs.warehouses
    simp only [List.countP_eq_length_filter] at h1 h2 h3 h4 h5
    unfold Rbac.privTotal
    omega
  · rw [hsucc, hfail]
    unfold Rbac.specEveryGrantSucceeds
    simp only [Bool.and_eq_true, List.append_eq_nil, List.map_eq_nil_iff]
    rw [Rbac.all_eq_filter_not_nil, Rbac.all_eq_filter_not_nil, Rbac.all_eq_filter_not_nil,
      Rbac.all_eq_filter_not_nil, Rbac.all_eq_filter_not_nil]
    simp only [Rbac.entryOk]

/-- A segment free of dots. -/
def noDotStr (s : String) : Bool := s.data.all (fun c => c != '.')

/-- Splitting a dot-free segment yields just that segment. -/
theorem splitDots_nodot (a : List Char) (h : a.all (fun c => c != '.') = true) :
    splitDots a = [a] := by
  induction a with
  | nil => rfl
  | cons c rest ih =>
    rw [List.all_cons] at h
    have hc : ¬(c = '.') := by
      intro hcc
      simp [hcc] at h
    have hrest : rest.all (fun c => c != '.') = true := by
      simp at h
      simp
      exact h.2
    rw [splitDots, if_neg hc, ih hrest]

/-- Splitting after a dot-free head peels exactly one segment. -/
theorem splitDots_append (a rest : List Char) (h : a.all (fun c => c != '.') = true) :
    splitDots (a ++ '.' :: rest) = a :: splitDots rest := by
  induction a with
  | nil =>
    rw [List.nil_append, splitDots, if_pos rfl]
  | cons c a2 ih =>
    rw [List.all_cons] at h
    have hc : ¬(c = '.') := by
      intro hcc
      simp [hcc] at h
    have ha2 : a2.all (fun c => c != '.') = true := by
      simp at h
      simp
      exact h.2
    rw [List.cons_append, splitDots, if_neg hc, ih ha2]

/-- A three-segment dot join splits into exactly three segments. -/
theorem segCount_join3 (a b c : String) (ha : noDotStr a = true) (hb : noDotStr b = true)
    (hc : noDotStr c = true) : segCount (a ++ "." ++ b ++ "." ++ c) = 3 := by
  unfold segCount
  have hdata : (a ++ "." ++ b ++ "." ++ c).data =
      a.data ++ '.' :: (b.data ++ '.' :: c.data) := by
    rw [String.data_append, String.data_append, String.data_append, String.data_append]
    simp
  rw [hdata, splitDots_append a.data _ ha, splitDots_append b.data _ hb,
    splitDots_nodot c.data hc]
  rfl

/-- Counterexample to claim C8: a table-level request whose source table
segment is itself dotted produces a clone statement whose source path has 4
segments, yet no InvalidPathError exists and nothing fails — the malformed
path is interpolated verbatim into the issued statements and the call
completes, returning true under a succeeding cursor. -/
theorem clone_table_malformed_counterexample :
    segCount ("PROD" ++ "." ++ "SCH" ++ "." ++ "A.B") = 4 ∧
    CloneFW.cloneTableStmts "PROD" "SCH" "A.B" "DEV" none none =
      ["CREATE DATABASE IF NOT EXISTS DEV",
       "CREATE SCHEMA IF NOT EXISTS DEV.SCH",
       "CREATE TABLE DEV.SCH.A.B CLONE PROD.SCH.A.B"] ∧
    CloneFW.cloneTable curTrue "PROD" "SCH" "A.B" "DEV" none none = true := by
  refine ⟨by decide, rfl, rfl⟩

/-- Claim C8 as amended: clone_table receives the path pre-split into
separate database/schema/table arguments, so for dot-free segments the
source and target paths of the issued clone statement have exactly 3
segments by construction; but no segment-count validation is performed and
no InvalidPathError exists — any input, malformed or not, is interpolated
verbatim into the three issued statements and the call returns only the
conjunction of their execution outcomes. -/
theorem clone_table_segments_amended (cur : CloneFW.Cursor)
    (sdb ssch stbl tdb : String) (tsch ttbl : Option String)
    (h1 : noDotStr sdb = true) (h2 : noDotStr ssch = true) (h3 : noDotStr stbl = true)
    (h4 : noDotStr tdb = true) (h5 : noDotStr (tsch.getD ssch) = true)
    (h6 : noDotStr (ttbl.getD stbl) = true) :
    segCount (sdb ++ "." ++ ssch ++ "." ++ stbl) = 3 ∧
    segCount (tdb ++ "." ++ tsch.getD ssch ++ "." ++ ttbl.getD stbl) = 3 ∧
    CloneFW.cloneTable cur sdb ssch stbl tdb tsch ttbl =
      (cur.execOk ("CREATE DATABASE IF NOT EXISTS " ++ tdb) &&
        (cur.execOk ("CREATE SCHEMA IF NOT EXISTS " ++ tdb ++ "." ++ tsch.getD ssch) &&
          (cur.execOk ("CREATE TABLE " ++ tdb ++ "." ++ tsch.getD ssch ++ "." ++
              ttbl.getD stbl ++ " CLONE " ++ sdb ++ "." ++ ssch ++ "." ++ stbl) &&
            true))) := by
  refine ⟨segCount_join3 sdb ssch stbl h1 h2 h3,
    segCount_join3 tdb (tsch.getD ssch) (ttbl.getD stbl) h4 h5 h6, ?_⟩
  rfl

/-- Witness for the amended C8 at concrete dot-free segments. -/
theorem clone_table_segments_amended_witness :
    segCount ("PROD" ++ "." ++ "S" ++ "." ++ "T") = 3 ∧
    segCount ("DEV" ++ "." ++ (Option.none.getD "S") ++ "." ++ (Option.none.getD "T")) = 3 ∧
    CloneFW.cloneTable curTrue "PROD" "S" "T" "DEV" none none =
      (curTrue.execOk ("CREATE DATABASE IF NOT EXISTS " ++ "DEV") &&
        (curTrue.execOk ("CREATE SCHEMA IF NOT EXISTS " ++ "DEV" ++ "." ++
            (Option.none.getD "S")) &&
          (curTrue.execOk ("CREATE TABLE " ++ "DEV" ++ "." ++ (Option.none.getD "S") ++ "." ++
              (Option.none.getD "T") ++ " CLONE " ++ "PROD" ++ "." ++ "S" ++ "." ++ "T") &&
            true))) :=
  clone_table_segments_amended curTrue "PROD" "S" "T" "DEV" none none
    (by decide) (by decide) (by decide) (by decide) (by decide) (by decide)

/-- Lookup after a dict insertion. -/
theorem lookupAssoc_insertAssoc {α : Type} (k q : String) (v : α) (m : List (String × α)) :
    lookupAssoc (insertAssoc k v m) q = if k = q then some v else lookupAssoc m q := by
  induction m with
  | nil =>
    by_cases h : k = q <;> simp [insertAssoc, lookupAssoc, h]
  | cons p rest ih =>
    obtain ⟨ke, ve⟩ := p
    by_cases h1 : ke = k
    · subst h1
      by_cases h2 : ke = q <;> simp [insertAssoc, lookupAssoc, h2]
    · by_cases h2 : ke = q
      · have hkq : ¬(k = q) := fun hk => h1 (h2.trans hk.symm)
        have h1q : ¬(q = k) := fun hq => hkq hq.symm
        simp [insertAssoc, lookupAssoc, h1, h2, hkq, h1q]
      · simp [insertAssoc, lookupAssoc, h1, h2, ih]

namespace Rbac

/-- The roles-dict build of the audit keeps every listed role name
reachable. -/
theorem audit_roles_mem (rows : List RoleRow) (acc : List (String × RoleMeta)) (q : String)
    (h : (lookupAssoc acc q).isSome = true ∨ ∃ r ∈ rows, r.name = q) :
    (lookupAssoc (rows.foldl
      (fun acc r => insertAssoc r.name ⟨r.created_on, r.owner, r.comment⟩ acc) acc) q).isSome =
        true := by
  induction rows generalizing acc with
  | nil =>
    rcases h with h | ⟨r, hr, _⟩
    · exact h
    · exact absurd hr (List.not_mem_nil r)
  | cons r rest ih =>
    rw [List.foldl_cons]
    apply ih
    rcases h with h | ⟨r2, hr2, hq⟩
    · left
      rw [lookupAssoc_insertAssoc]
      by_cases hk : r.name = q <;> simp [hk, h]
    · rcases List.mem_cons.mp hr2 with h2 | h2
      · subst h2
        left
        rw [lookupAssoc_insertAssoc, if_pos hq]
        rfl
      · right
        exact ⟨r2, h2, hq⟩

/-- A role whose grant listing raises never enters the grants map. -/
theorem auditGrantsLoop_unreadable (cur : RCursor) (keys : List String) (q : String)
    (h : cur.showGrants q = none) :
    lookupAssoc (auditGrantsLoop cur keys).1 q = none := by
  induction keys with
  | nil => rfl
  | cons k rest ih =>
    rw [auditGrantsLoop]
    cases hg : cur.showGrants k with
    | none => exact ih
    | some grows =>
      by_cases he : (grows.map toGrantInfo).isEmpty
      · simp only [he, if_true]
        exact ih
      · simp only [he, if_false, Bool.false_eq_true]
        rw [lookupAssoc]
        have hkq : ¬(k = q) := by
          intro hkq
          rw [hkq, h] at hg
          exact Option.noConfusion hg
        rw [if_neg hkq]
        exact ih

/-- The grants counter never exceeds the number of keys whose listing
succeeded. -/
theorem auditGrantsLoop_count_le (cur : RCursor) (keys : List String) :
    (auditGrantsLoop cur keys).2 ≤ keys.countP (fun k => (cur.showGrants k).isSome) := by
  induction keys with
  | nil => simp [auditGrantsLoop]
  | cons k rest ih =>
    rw [auditGrantsLoop, List.countP_cons]
    cases hg : cur.showGrants k with
    | none => simp [hg]; omega
    | some grows =>
      by_cases he : (grows.map toGrantInfo).isEmpty
      · simp only [he, if_true]
        simp [hg]
        omega
      · simp only [he, if_false, Bool.false_eq_true]
        simp [hg]
        omega

end Rbac

/-- The roles dict built by the audit from the SHOW ROLES rows. -/
def auditRolesMap (rows : List Rbac.RoleRow) : List (String × Rbac.RoleMeta) :=
  rows.foldl (fun acc r => insertAssoc r.name ⟨r.created_on, r.owner, r.comment⟩ acc) []

/-- Reduction of the audit on a successful SHOW ROLES. -/
theorem auditRbacConfiguration_some (cur : Rbac.RCursor) (td now : String)
    (rows : List Rbac.RoleRow) (h : cur.showRoles = some rows) :
    Rbac.auditRbacConfiguration cur td now =
      { timestamp := now, target_database := td,
        roles := auditRolesMap rows,
        grants := (Rbac.auditGrantsLoop cur ((auditRolesMap rows).map (fun p => p.1))).1,
        summary := ⟨rows.length,
          (Rbac.auditGrantsLoop cur ((auditRolesMap rows).map (fun p => p.1))).2, 0⟩,
        errored := false } := by
  unfold Rbac.auditRbacConfiguration auditRolesMap
  rw [h]

/-- Claim C9: on an audit run where some grant listings cannot be read, every
listed role is counted in total_roles and kept in the roles mapping, the
unreadable roles are omitted from the grants mapping, and roles_with_grants
is at most the number of role names whose grant listing succeeded. -/
theorem audit_degrade_gracefully (cur : Rbac.RCursor) (td now : String)
    (rows : List Rbac.RoleRow) (hrows : cur.showRoles = some rows) :
    (Rbac.auditRbacConfiguration cur td now).summary.total_roles = rows.length ∧
    (∀ r ∈ rows,
      (lookupAssoc (Rbac.auditRbacConfiguration cur td now).roles r.name).isSome = true) ∧
    (∀ r ∈ rows, cur.showGrants r.name = none →
      lookupAssoc (Rbac.auditRbacConfiguration cur td now).grants r.name = none) ∧
    (Rbac.auditRbacConfiguration cur td now).summary.roles_with_grants ≤
      ((Rbac.auditRbacConfiguration cur td now).roles.map (fun p => p.1)).countP
        (fun k => (cur.showGrants k).isSome) := by
  rw [auditRbacConfiguration_some cur td now rows hrows]
  refine ⟨rfl, ?_, ?_, ?_⟩
  · intro r hr
    exact Rbac.audit_roles_mem rows [] r.name (Or.inr ⟨r, hr, rfl⟩)
  · intro r hr h
    exact Rbac.auditGrantsLoop_unreadable cur _ r.name h
  · exact Rbac.auditGrantsLoop_count_le cur _

/-- Five listed roles for the C9 witness. -/
def rowsC9 : List Rbac.RoleRow :=
  [⟨"t1", "R1", none, none⟩, ⟨"t2", "R2", none, none⟩, ⟨"t3", "R3", none, none⟩,
   ⟨"t4", "R4", none, none⟩, ⟨"t5", "R5", none, none⟩]

/-- A cursor for the C9 witness: 5 roles listed, grant listings of R2 and R4
raise, the other three return one grant each. -/
def curC9 : Rbac.RCursor :=
  { execOk := fun _ => true,
    showRoles := some rowsC9,
    showGrants := fun r =>
      if r = "R2" ∨ r = "R4" then none
      else some [⟨"USAGE", "DATABASE", "DEV", some "ROLE", some r⟩] }

/-- Witness for C9 at the concrete 5-role audit with 2 unreadable roles. -/
theorem audit_degrade_gracefully_witness :
    (Rbac.auditRbacConfiguration curC9 "DEV" "t0").summary.total_roles = rowsC9.length ∧
    (∀ r ∈ rowsC9,
      (lookupAssoc (Rbac.auditRbacConfiguration curC9 "DEV" "t0").roles r.name).isSome =
        true) ∧
    (∀ r ∈ rowsC9, curC9.showGrants r.name = none →
      lookupAssoc (Rbac.auditRbacConfiguration curC9 "DEV" "t0").grants r.name = none) ∧
    (Rbac.auditRbacConfiguration curC9 "DEV" "t0").summary.roles_with_grants ≤
      ((Rbac.auditRbacConfiguration curC9 "DEV" "t0").roles.map (fun p => p.1)).countP
        (fun k => (curC9.showGrants k).isSome) :=
  audit_degrade_gracefully curC9 "DEV" "t0" rowsC9 rfl

namespace Rbac

/-- A role-map phase is failed exactly when some entry is false. -/
theorem roleMapFailed_iff (m : List (String × Bool)) :
    roleMapFailed m = true ↔ ∃ p ∈ m, p.2 = false := by
  unfold roleMapFailed
  rw [Bool.not_eq_true']
  rw [List.all_eq_false]
  simp

/-- With non-empty timestamp and target-database strings, the privileges
phase is failed exactly when its summary counted a failed role or its roles
map is empty. -/
theorem privPhaseFailed_iff (p : PrivPhaseResult) (ht : p.timestamp ≠ "")
    (hd : p.target_database ≠ "") :
    privPhaseFailed p = true ↔ (0 < p.summary.failed_roles ∨ p.roles = []) := by
  unfold privPhaseFailed
  by_cases h : 0 < p.summary.failed_roles
  · simp [h]
  · simp [h, ht, hd, List.isEmpty_iff]

/-- With a non-empty timestamp string, the user-assignments phase is failed
exactly when its users map is empty — individual assignment failures never
flag it. -/
theorem assignPhaseFailed_iff (a : AssignResult) (ht : a.timestamp ≠ "") :
    assignPhaseFailed a = true ↔ a.users = [] := by
  unfold assignPhaseFailed
  simp [ht, List.isEmpty_iff]

/-- Membership in one phase flag. -/
theorem mem_phaseFlag (s n : String) (b : Bool) :
    s ∈ phaseFlag b n ↔ (b = true ∧ s = n) := by
  cases b <;> simp [phaseFlag]

/-- Emptiness of one phase flag. -/
theorem phaseFlag_isEmpty (n : String) (b : Bool) : (phaseFlag b n).isEmpty = !b := by
  cases b <;> rfl

/-- The privileges-phase fold keeps the timestamp and target database
fields. -/
theorem applyPhase_fold_fixed (cur : RCursor) (l : List RoleConfig) (td : String)
    (acc : PrivPhaseResult) :
    ((l.foldl (fun acc rc =>
      let rr := applyRolePrivileges cur rc.name rc.privileges td
      { acc with
        roles := insertAssoc rc.name rr acc.roles,
        summary :=
          { total_roles := acc.summary.total_roles + 1,
            successful_roles :=
              if rr.success then acc.summary.successful_roles + 1
              else acc.summary.successful_roles,
            failed_roles :=
              if rr.success then acc.summary.failed_roles
              else acc.summary.failed_roles + 1 } }) acc).timestamp = acc.timestamp) ∧
    ((l.foldl (fun acc rc =>
      let rr := applyRolePrivileges cur rc.name rc.privileges td
      { acc with
        roles := insertAssoc rc.name rr acc.roles,
        summary :=
          { total_roles := acc.summary.total_roles + 1,
            successful_roles :=
              if rr.success then acc.summary.successful_roles + 1
              else acc.summary.successful_roles,
            failed_roles :=
              if rr.success then acc.summary.failed_roles
              else acc.summary.failed_roles + 1 } }) acc).target_database =
      acc.target_database) := by
  induction l generalizing acc with
  | nil => exact ⟨rfl, rfl⟩
  | cons rc rest ih =>
    rw [List.foldl_cons]
    exact ih _

/-- The timestamp and target database recorded by the privileges phase. -/
theorem applyPhase_fixed (cur : RCursor) (sr fr : List RoleConfig) (td now : String) :
    (applyRolePrivilegesPhase cur sr fr td now).timestamp = now ∧
    (applyRolePrivilegesPhase cur sr fr td now).target_database = td := by
  unfold applyRolePrivilegesPhase
  exact applyPhase_fold_fixed cur (sr ++ fr) td ⟨now, td, [], ⟨0, 0, 0⟩⟩

/-- The timestamp recorded by the user-assignment phase. -/
theorem assignUsersToRoles_timestamp (cur : RCursor) (users : List UserConfig)
    (now : String) : (assignUsersToRoles cur users now).timestamp = now := rfl

end Rbac

/-- RBAC configuration for the C2 counterexample: one service role with no
privileges, no hierarchy, one user with one role to receive. -/
def cfgC2 : Rbac.RbacConfig :=
  { service_roles := [⟨"SR_A", "", ⟨[], [], [], [], []⟩⟩],
    system_full_roles := [],
    role_hierarchy := [],
    user_assignments := some [⟨"alice", ["R1"]⟩] }

/-- A cursor for the C2 counterexample: every statement succeeds except the
grant of role R1 to user alice. -/
def curC2 : Rbac.RCursor :=
  { execOk := fun s => s != "GRANT ROLE R1 TO USER alice",
    showRoles := none,
    showGrants := fun _ => none }

/-- Counterexample to claim C2: the grant of R1 to alice fails — the
user_assignments phase records the failed assignment (failed_assignments = 1,
alice marked unsuccessful) — yet overall_success stays true and failed_phases
stays empty, because the per-user failure sits inside an always-truthy
per-user dict that the phase-failure check never inspects. The claim says
overall_success must be false here. -/
theorem rbac_user_assignment_failure_counterexample :
    (Rbac.completeRbacSetup curC2 cfgC2 "DEV" "t0").phases.user_assignments =
      some ⟨"t0", [("alice", ⟨"alice", [], ["R1"], false⟩)], ⟨1, 0, 1⟩⟩ ∧
    (Rbac.completeRbacSetup curC2 cfgC2 "DEV" "t0").overall_success = true ∧
    (Rbac.completeRbacSetup curC2 cfgC2 "DEV" "t0").failed_phases = [] := by
  refine ⟨rfl, rfl, rfl⟩

/-- A phase flag is empty exactly when its boolean is false. -/
theorem phaseFlag_eq_nil (b : Bool) (n : String) : Rbac.phaseFlag b n = [] ↔ b = false := by
  cases b <;> simp [Rbac.phaseFlag]

/-- Peeling one phase flag off a concatenation that should be empty. -/
theorem append_phaseFlag_eq_nil (b : Bool) (n : String) (rest : List String) :
    (Rbac.phaseFlag b n ++ rest) = [] ↔ (b = false ∧ rest = []) := by
  cases b <;> simp [Rbac.phaseFlag]

/-- isEmpty = false is the same as being non-nil. -/
theorem isEmpty_eq_false_iff (l : List String) : l.isEmpty = false ↔ l ≠ [] := by
  cases l <;> simp

/-- Claim C2 as amended: complete_rbac_setup returns overall_success false iff
some phase is recorded in failed_phases, and the phase-failure predicates the
code actually applies are: a role-creation phase fails iff some role failed
to create; the hierarchy phase fails iff some edge failed; the privileges
phase fails iff its summary has failed_roles > 0 OR its roles map is empty;
and the user_assignments phase (when present) fails iff its users map is
empty — an individual user role-assignment failure does NOT flag the phase,
because it sits inside an always-truthy per-user dict. Stated for non-empty
timestamp and target-database strings and role names other than the literal
string summary (a role of that name would make the source raise instead). -/
theorem rbac_overall_success_iff_amended (cur : Rbac.RCursor) (cfg : Rbac.RbacConfig)
    (td now : String) (htd : td ≠ "") (hnow : now ≠ "")
    (_hs1 : "summary" ∉ cfg.service_roles.map (fun rc => rc.name))
    (_hs2 : "summary" ∉ cfg.system_full_roles.map (fun rc => rc.name)) :
    ((Rbac.completeRbacSetup cur cfg td now).overall_success = false ↔
      (Rbac.completeRbacSetup cur cfg td now).failed_phases ≠ []) ∧
    ("service_roles" ∈ (Rbac.completeRbacSetup cur cfg td now).failed_phases ↔
      ∃ p ∈ (Rbac.completeRbacSetup cur cfg td now).phases.service_roles, p.2 = false) ∧
    ("system_full_roles" ∈ (Rbac.completeRbacSetup cur cfg td now).failed_phases ↔
      ∃ p ∈ (Rbac.completeRbacSetup cur cfg td now).phases.system_full_roles, p.2 = false) ∧
    ("privileges" ∈ (Rbac.completeRbacSetup cur cfg td now).failed_phases ↔
      (0 < (Rbac.completeRbacSetup cur cfg td now).phases.privileges.summary.failed_roles ∨
        (Rbac.completeRbacSetup cur cfg td now).phases.privileges.roles = [])) ∧
    ("hierarchy" ∈ (Rbac.completeRbacSetup cur cfg td now).failed_phases ↔
      ∃ p ∈ (Rbac.completeRbacSetup cur cfg td now).phases.hierarchy, p.2 = false) ∧
    (∀ a, (Rbac.completeRbacSetup cur cfg td now).phases.user_assignments = some a →
      ("user_assignments" ∈ (Rbac.completeRbacSetup cur cfg td now).failed_phases ↔
        a.users = [])) ∧
    ((Rbac.completeRbacSetup cur cfg td now).overall_success = false ↔
      ((∃ p ∈ (Rbac.completeRbacSetup cur cfg td now).phases.service_roles, p.2 = false) ∨
       (∃ p ∈ (Rbac.completeRbacSetup cur cfg td now).phases.system_full_roles,
         p.2 = false) ∨
       (0 < (Rbac.completeRbacSetup cur cfg td now).phases.privileges.summary.failed_roles ∨
         (Rbac.completeRbacSetup cur cfg td now).phases.privileges.roles = []) ∨
       (∃ p ∈ (Rbac.completeRbacSetup cur cfg td now).phases.hierarchy, p.2 = false) ∨
       (∃ a, (Rbac.completeRbacSetup cur cfg td now).phases.user_assignments = some a ∧
         a.users = []))) := by
  have hpv := Rbac.applyPhase_fixed cur cfg.service_roles cfg.system_full_roles td now
  have hpvt : (Rbac.applyRolePrivilegesPhase cur cfg.service_roles cfg.system_full_roles
      td now).timestamp ≠ "" := by
    rw [hpv.1]
    exact hnow
  have hpvd : (Rbac.applyRolePrivilegesPhase cur cfg.service_roles cfg.system_full_roles
      td now).target_database ≠ "" := by
    rw [hpv.2]
    exact htd
  have hiff1 := Rbac.roleMapFailed_iff (Rbac.createRolesPhase cur cfg.service_roles)
  have hiff2 := Rbac.roleMapFailed_iff (Rbac.createRolesPhase cur cfg.system_full_roles)
  have hiff3 := Rbac.privPhaseFailed_iff
    (Rbac.applyRolePrivilegesPhase cur cfg.service_roles cfg.system_full_roles td now)
    hpvt hpvd
  have hiff4 := Rbac.roleMapFailed_iff (Rbac.setupRoleHierarchy cur cfg.role_hierarchy)
  cases hua : cfg.user_assignments with
  | none =>
    have hpu : (Rbac.completeRbacSetup cur cfg td now).phases.user_assignments = none := by
      unfold Rbac.completeRbacSetup
      rw [hua]
      try rfl
    have hfail : (Rbac.completeRbacSetup cur cfg td now).failed_phases =
        Rbac.phaseFlag (Rbac.roleMapFailed (Rbac.createRolesPhase cur cfg.service_roles))
          "service_roles" ++
        Rbac.phaseFlag (Rbac.roleMapFailed (Rbac.createRolesPhase cur cfg.system_full_roles))
          "system_full_roles" ++
        Rbac.phaseFlag (Rbac.privPhaseFailed (Rbac.applyRolePrivilegesPhase cur
          cfg.service_roles cfg.system_full_roles td now)) "privileges" ++
        Rbac.phaseFlag (Rbac.roleMapFailed (Rbac.setupRoleHierarchy cur cfg.role_hierarchy))
          "hierarchy" ++ [] := by
      unfold Rbac.completeRbacSetup
      rw [hua]
      try rfl
    have hov : (Rbac.completeRbacSetup cur cfg td now).overall_success =
        ((Rbac.completeRbacSetup cur cfg td now).failed_phases).isEmpty := by
      unfold Rbac.completeRbacSetup
      rw [hua]
      try rfl
    have hps : (Rbac.completeRbacSetup cur cfg td now).phases.service_roles =
        Rbac.createRolesPhase cur cfg.service_roles := by
      unfold Rbac.completeRbacSetup
      rw [hua]
      try rfl
    have hpf : (Rbac.completeRbacSetup cur cfg td now).phases.system_full_roles =
        Rbac.createRolesPhase cur cfg.system_full_roles := by
      unfold Rbac.completeRbacSetup
      rw [hua]
      try rfl
    have hpp : (Rbac.completeRbacSetup cur cfg td now).phases.privileges =
        Rbac.applyRolePrivilegesPhase cur cfg.service_roles cfg.system_full_roles td now := by
      unfold Rbac.completeRbacSetup
      rw [hua]
      try rfl
    have hph : (Rbac.completeRbacSetup cur cfg td now).phases.hierarchy =
        Rbac.setupRoleHierarchy cur cfg.role_hierarchy := by
      unfold Rbac.completeRbacSetup
      rw [hua]
      try rfl
    have hnil : (Rbac.completeRbacSetup cur cfg td now).failed_phases = [] ↔
        (Rbac.roleMapFailed (Rbac.createRolesPhase cur cfg.service_roles) = false ∧
         Rbac.roleMapFailed (Rbac.createRolesPhase cur cfg.system_full_roles) = false ∧
         Rbac.privPhaseFailed (Rbac.applyRolePrivilegesPhase cur cfg.service_roles
           cfg.system_full_roles td now) = false ∧
         Rbac.roleMapFailed (Rbac.setupRoleHierarchy cur cfg.role_hierarchy) = false) := by
      rw [hfail]
      simp [List.append_eq_nil, phaseFlag_eq_nil, and_assoc]
    refine ⟨?_, ?_, ?_, ?_, ?_, ?_, ?_⟩
    · rw [hov]
      exact isEmpty_eq_false_iff _
    · rw [hfail, hps, ← hiff1]
      simp [List.mem_append, Rbac.mem_phaseFlag]
    · rw [hfail, hpf, ← hiff2]
      simp [List.mem_append, Rbac.mem_phaseFlag]
    · rw [hfail, hpp, ← hiff3]
      simp [List.mem_append, Rbac.mem_phaseFlag]
    · rw [hfail, hph, ← hiff4]
      simp [List.mem_append, Rbac.mem_phaseFlag]
    · intro a ha
      rw [hpu] at ha
      exact Option.noConfusion ha
    · rw [hov, isEmpty_eq_false_iff, ne_eq, hnil, hps, hpf, hpp, hph, hpu,
        ← hiff1, ← hiff2, ← hiff3, ← hiff4]
      constructor
      · intro h
        by_cases h1 : Rbac.roleMapFailed (Rbac.createRolesPhase cur cfg.service_roles) = true
        · exact Or.inl h1
        · by_cases h2 : Rbac.roleMapFailed
              (Rbac.createRolesPhase cur cfg.system_full_roles) = true
          · exact Or.inr (Or.inl h2)
          · by_cases h3 : Rbac.privPhaseFailed (Rbac.applyRolePrivilegesPhase cur
                cfg.service_roles cfg.system_full_roles td now) = true
            · exact Or.inr (Or.inr (Or.inl h3))
            · by_cases h4 : Rbac.roleMapFailed
                  (Rbac.setupRoleHierarchy cur cfg.role_hierarchy) = true
              · exact Or.inr (Or.inr (Or.inr (Or.inl h4)))
              · exact absurd ⟨Bool.not_eq_true _ ▸ Bool.of_not_eq_true h1,
                  Bool.of_not_eq_true h2, Bool.of_not_eq_true h3,
                  Bool.of_not_eq_true h4⟩ h
      · intro h hc
        rcases h with h | h | h | h | h
        · rw [hc.1] at h
          exact Bool.false_ne_true h
        · rw [hc.2.1] at h
          exact Bool.false_ne_true h
        · rw [hc.2.2.1] at h
          exact Bool.false_ne_true h
        · rw [hc.2.2.2] at h
          exact Bool.false_ne_true h
        · obtain ⟨a, ha, _⟩ := h
          exact Option.noConfusion ha
  | some users =>
    have hpu : (Rbac.completeRbacSetup cur cfg td now).phases.user_assignments =
        some (Rbac.assignUsersToRoles cur users now) := by
      unfold Rbac.completeRbacSetup
      rw [hua]
      try rfl
    have hiff5 := Rbac.assignPhaseFailed_iff (Rbac.assignUsersToRoles cur users now)
      (by rw [Rbac.assignUsersToRoles_timestamp]; exact hnow)
    have hfail : (Rbac.completeRbacSetup cur cfg td now).failed_phases =
        Rbac.phaseFlag (Rbac.roleMapFailed (Rbac.createRolesPhase cur cfg.service_roles))
          "service_roles" ++
        Rbac.phaseFlag (Rbac.roleMapFailed (Rbac.createRolesPhase cur cfg.system_full_roles))
          "system_full_roles" ++
        Rbac.phaseFlag (Rbac.privPhaseFailed (Rbac.applyRolePrivilegesPhase cur
          cfg.service_roles cfg.system_full_roles td now)) "privileges" ++
        Rbac.phaseFlag (Rbac.roleMapFailed (Rbac.setupRoleHierarchy cur cfg.role_hierarchy))
          "hierarchy" ++
        Rbac.phaseFlag (Rbac.assignPhaseFailed (Rbac.assignUsersToRoles cur users now))
          "user_assignments" := by
      unfold Rbac.completeRbacSetup
      rw [hua]
      try rfl
    have hov : (Rbac.completeRbacSetup cur cfg td now).overall_success =
        ((Rbac.completeRbacSetup cur cfg td now).failed_phases).isEmpty := by
      unfold Rbac.completeRbacSetup
      rw [hua]
      try rfl
    have hps : (Rbac.completeRbacSetup cur cfg td now).phases.service_roles =
        Rbac.createRolesPhase cur cfg.service_roles := by
      unfold Rbac.completeRbacSetup
      rw [hua]
      try rfl
    have hpf : (Rbac.completeRbacSetup cur cfg td now).phases.system_full_roles =
        Rbac.createRolesPhase cur cfg.system_full_roles := by
      unfold Rbac.completeRbacSetup
      rw [hua]
      try rfl
    have hpp : (Rbac.completeRbacSetup cur cfg td now).phases.privileges =
        Rbac.applyRolePrivilegesPhase cur cfg.service_roles cfg.system_full_roles td now := by
      unfold Rbac.completeRbacSetup
      rw [hua]
      try rfl
    have hph : (Rbac.completeRbacSetup cur cfg td now).phases.hierarchy =
        Rbac.setupRoleHierarchy cur cfg.role_hierarchy := by
      unfold Rbac.completeRbacSetup
      rw [hua]
      try rfl
    have hnil : (Rbac.completeRbacSetup cur cfg td now).failed_phases = [] ↔
        (Rbac.roleMapFailed (Rbac.createRolesPhase cur cfg.service_roles) = false ∧
         Rbac.roleMapFailed (Rbac.createRolesPhase cur cfg.system_full_roles) = false ∧
         Rbac.privPhaseFailed (Rbac.applyRolePrivilegesPhase cur cfg.service_roles
           cfg.system_full_roles td now) = false ∧
         Rbac.roleMapFailed (Rbac.setupRoleHierarchy cur cfg.role_hierarchy) = false ∧
         Rbac.assignPhaseFailed (Rbac.assignUsersToRoles cur users now) = false) := by
      rw [hfail]
      simp [List.append_eq_nil, phaseFlag_eq_nil, and_assoc]
    have hA5 : (∃ a, (Rbac.completeRbacSetup cur cfg td now).phases.user_assignments =
          some a ∧ a.users = []) ↔
        Rbac.assignPhaseFailed (Rbac.assignUsersToRoles cur users now) = true := by
      rw [hpu]
      constructor
      · rintro ⟨a, ha, hu⟩
        have ha2 := Option.some.inj ha
        exact hiff5.mpr (ha2 ▸ hu)
      · intro hb
        exact ⟨Rbac.assignUsersToRoles cur users now, rfl, hiff5.mp hb⟩
    refine ⟨?_, ?_, ?_, ?_, ?_, ?_, ?_⟩
    · rw [hov]
      exact isEmpty_eq_false_iff _
    · rw [hfail, hps, ← hiff1]
      simp [List.mem_append, Rbac.mem_phaseFlag]
    · rw [hfail, hpf, ← hiff2]
      simp [List.mem_append, Rbac.mem_phaseFlag]
    · rw [hfail, hpp, ← hiff3]
      simp [List.mem_append, Rbac.mem_phaseFlag]
    · rw [hfail, hph, ← hiff4]
      simp [List.mem_append, Rbac.mem_phaseFlag]
    · intro a ha
      rw [hpu] at ha
      have ha2 := Option.some.inj ha
      rw [hfail, ← ha2, ← hiff5, ha2]
      simp [List.mem_append, Rbac.mem_phaseFlag]
    · rw [hov, isEmpty_eq_false_iff, ne_eq, hnil, hps, hpf, hpp, hph,
        ← hiff1, ← hiff2, ← hiff3, ← hiff4, hA5]
      constructor
      · intro h
        by_cases h1 : Rbac.roleMapFailed (Rbac.createRolesPhase cur cfg.service_roles) = true
        · exact Or.inl h1
        · by_cases h2 : Rbac.roleMapFailed
              (Rbac.createRolesPhase cur cfg.system_full_roles) = true
          · exact Or.inr (Or.inl h2)
          · by_cases h3 : Rbac.privPhaseFailed (Rbac.applyRolePrivilegesPhase cur
                cfg.service_roles cfg.system_full_roles td now) = true
            · exact Or.inr (Or.inr (Or.inl h3))
            · by_cases h4 : Rbac.roleMapFailed
                  (Rbac.setupRoleHierarchy cur cfg.role_hierarchy) = true
              · exact Or.inr (Or.inr (Or.inr (Or.inl h4)))
              · by_cases h5 : Rbac.assignPhaseFailed
                    (Rbac.assignUsersToRoles cur users now) = true
                · exact Or.inr (Or.inr (Or.inr (Or.inr h5)))
                · exact absurd ⟨Bool.of_not_eq_true h1, Bool.of_not_eq_true h2,
                    Bool.of_not_eq_true h3, Bool.of_not_eq_true h4,
                    Bool.of_not_eq_true h5⟩ h
      · intro h hc
        rcases h with h | h | h | h | h
        · rw [hc.1] at h
          exact Bool.false_ne_true h
        · rw [hc.2.1] at h
          exact Bool.false_ne_true h
        · rw [hc.2.2.1] at h
          exact Bool.false_ne_true h
        · rw [hc.2.2.2.1] at h
          exact Bool.false_ne_true h
        · rw [hc.2.2.2.2] at h
          exact Bool.false_ne_true h

/-- Witness for the amended C2 at the concrete configuration of the
counterexample: both iff directions instantiated. -/
theorem rbac_overall_success_iff_amended_witness :
    ((Rbac.completeRbacSetup curC2 cfgC2 "DEV" "t0").overall_success = false ↔
      (Rbac.completeRbacSetup curC2 cfgC2 "DEV" "t0").failed_phases ≠ []) ∧
    ("service_roles" ∈ (Rbac.completeRbacSetup curC2 cfgC2 "DEV" "t0").failed_phases ↔
      ∃ p ∈ (Rbac.completeRbacSetup curC2 cfgC2 "DEV" "t0").phases.service_roles,
        p.2 = false) ∧
    ("system_full_roles" ∈ (Rbac.completeRbacSetup curC2 cfgC2 "DEV" "t0").failed_phases ↔
      ∃ p ∈ (Rbac.completeRbacSetup curC2 cfgC2 "DEV" "t0").phases.system_full_roles,
        p.2 = false) ∧
    ("privileges" ∈ (Rbac.completeRbacSetup curC2 cfgC2 "DEV" "t0").failed_phases ↔
      (0 < (Rbac.completeRbacSetup curC2 cfgC2
            "DEV" "t0").phases.privileges.summary.failed_roles ∨
        (Rbac.completeRbacSetup curC2 cfgC2 "DEV" "t0").phases.privileges.roles = [])) ∧
    ("hierarchy" ∈ (Rbac.completeRbacSetup curC2 cfgC2 "DEV" "t0").failed_phases ↔
      ∃ p ∈ (Rbac.completeRbacSetup curC2 cfgC2 "DEV" "t0").phases.hierarchy, p.2 = false) ∧
    (∀ a, (Rbac.completeRbacSetup curC2 cfgC2 "DEV" "t0").phases.user_assignments = some a →
      ("user_assignments" ∈ (Rbac.completeRbacSetup curC2 cfgC2 "DEV" "t0").failed_phases ↔
        a.users = [])) ∧
    ((Rbac.completeRbacSetup curC2 cfgC2 "DEV" "t0").overall_success = false ↔
      ((∃ p ∈ (Rbac.completeRbacSetup curC2 cfgC2 "DEV" "t0").phases.service_roles,
         p.2 = false) ∨
       (∃ p ∈ (Rbac.completeRbacSetup curC2 cfgC2 "DEV" "t0").phases.system_full_roles,
         p.2 = false) ∨
       (0 < (Rbac.completeRbacSetup curC2 cfgC2
           "DEV" "t0").phases.privileges.summary.failed_roles ∨
         (Rbac.completeRbacSetup curC2 cfgC2 "DEV" "t0").phases.privileges.roles = []) ∨
       (∃ p ∈ (Rbac.completeRbacSetup curC2 cfgC2 "DEV" "t0").phases.hierarchy,
         p.2 = false) ∨
       (∃ a, (Rbac.completeRbacSetup curC2 cfgC2 "DEV" "t0").phases.user_assignments =
           some a ∧ a.users = []))) :=
  rbac_overall_success_iff_amended curC2 cfgC2 "DEV" "t0" (by decide) (by decide)
    (by decide) (by decide)
